import Mathlib

/-!
Verification of the FLUX ML API server's orchestration core (src/app.py,
src/utils.py): cache-key fingerprinting, result caching, per-user rate
limiting, task lifecycle bookkeeping, and the submission / status / result
endpoints, together with the asynchronous generation workers.

The Python code is shallowly embedded: Redis stores become association
lists (newest entry first, as produced by SET/SETEX overwrites), machine
integers become `Nat`/`Int` with explicit `% 2 ^ 32` where the hash
arithmetic wraps, Python floats become rationals, and the external
collaborators (Celery ids, UUID generation, the Generator, LoRA download)
become explicit oracle parameters.  Fallible Redis round trips are
modelled by an explicit exception-result type where a claim depends on
error behaviour.
-/

namespace FluxML

/-! ### Word-level helpers for the hash primitives (hashlib.sha256 / hashlib.md5)

All 32-bit arithmetic is done on `Nat` with explicit reduction `% M32`. -/

def M32 : Nat := 4294967296

def rotr32 (x n : Nat) : Nat := ((x >>> n) ||| (x <<< (32 - n))) % M32

def rotl32 (x n : Nat) : Nat := ((x <<< n) ||| (x >>> (32 - n))) % M32

/-- Bitwise complement on 32-bit words represented as `Nat` below `M32`. -/
def not32 (x : Nat) : Nat := M32 - 1 - x

/-- UTF-8 encoding of a single character, as `str.encode()` produces it. -/
def utf8Char (c : Char) : List Nat :=
  let n := c.toNat
  if n < 128 then [n]
  else if n < 2048 then [192 ||| (n >>> 6), 128 ||| (n &&& 63)]
  else if n < 65536 then [224 ||| (n >>> 12), 128 ||| ((n >>> 6) &&& 63), 128 ||| (n &&& 63)]
  else [240 ||| (n >>> 18), 128 ||| ((n >>> 12) &&& 63), 128 ||| ((n >>> 6) &&& 63),
        128 ||| (n &&& 63)]

/-- `s.encode()`: the UTF-8 byte sequence of a Python string. -/
def utf8Encode (s : String) : List Nat := s.data.flatMap utf8Char

/-- Merkle–Damgård padding shared by SHA-256 and MD5: append 0x80, zero-pad to
56 mod 64 bytes, then append the 8-byte bit length (byte order differs, so the
length bytes are supplied by the caller). -/
def padZeroCount (len : Nat) : Nat := (120 - (len + 1) % 64) % 64

def sha256Pad (msg : List Nat) : List Nat :=
  let len := msg.length
  let bitLen := 8 * len
  msg ++ [128] ++ List.replicate (padZeroCount len) 0 ++
    [(bitLen >>> 56) % 256, (bitLen >>> 48) % 256, (bitLen >>> 40) % 256, (bitLen >>> 32) % 256,
     (bitLen >>> 24) % 256, (bitLen >>> 16) % 256, (bitLen >>> 8) % 256, bitLen % 256]

def bytesToWordsBE : List Nat → List Nat
  | b0 :: b1 :: b2 :: b3 :: rest =>
      ((b0 <<< 24) ||| (b1 <<< 16) ||| (b2 <<< 8) ||| b3) :: bytesToWordsBE rest
  | _ => []

/-- Split a word stream into 16-word (512-bit) blocks.  Written with an
explicit 16-fold cons pattern so that it is structurally recursive and
reduces inside the kernel; padded messages are always a whole number of
blocks, so the fallback never fires on real inputs. -/
def chunk16 : List Nat → List (List Nat)
  | w0 :: w1 :: w2 :: w3 :: w4 :: w5 :: w6 :: w7 ::
    w8 :: w9 :: w10 :: w11 :: w12 :: w13 :: w14 :: w15 :: rest =>
      [w0, w1, w2, w3, w4, w5, w6, w7, w8, w9, w10, w11, w12, w13, w14, w15] :: chunk16 rest
  | _ => []

def sha256K : List Nat :=
  [1116352408, 1899447441, 3049323471, 3921009573, 961987163, 1508970993,
   2453635748, 2870763221, 3624381080, 310598401, 607225278, 1426881987,
   1925078388, 2162078206, 2614888103, 3248222580, 3835390401, 4022224774,
   264347078, 604807628, 770255983, 1249150122, 1555081692, 1996064986,
   2554220882, 2821834349, 2952996808, 3210313671, 3336571891, 3584528711,
   113926993, 338241895, 666307205, 773529912, 1294757372, 1396182291,
   1695183700, 1986661051, 2177026350, 2456956037, 2730485921, 2820302411,
   3259730800, 3345764771, 3516065817, 3600352804, 4094571909, 275423344,
   430227734, 506948616, 659060556, 883997877, 958139571, 1322822218,
   1537002063, 1747873779, 1955562222, 2024104815, 2227730452, 2361852424,
   2428436474, 2756734187, 3204031479, 3329325298]

structure H8 where
  a : Nat
  b : Nat
  c : Nat
  d : Nat
  e : Nat
  f : Nat
  g : Nat
  h : Nat
deriving DecidableEq

def sSig0 (x : Nat) : Nat := (rotr32 x 7) ^^^ (rotr32 x 18) ^^^ (x >>> 3)

def sSig1 (x : Nat) : Nat := (rotr32 x 17) ^^^ (rotr32 x 19) ^^^ (x >>> 10)

def bSig0 (x : Nat) : Nat := (rotr32 x 2) ^^^ (rotr32 x 13) ^^^ (rotr32 x 22)

def bSig1 (x : Nat) : Nat := (rotr32 x 6) ^^^ (rotr32 x 11) ^^^ (rotr32 x 25)

/-- Message-schedule extension: the accumulator holds already-produced words,
most recent first, so W[i-2] is entry 1 and W[i-16] is entry 15. -/
def extendW : Nat → List Nat → List Nat
  | 0, acc => acc
  | k + 1, acc =>
      let w2 := acc.getD 1 0
      let w7 := acc.getD 6 0
      let w15 := acc.getD 14 0
      let w16 := acc.getD 15 0
      extendW k (((sSig1 w2 + w7 + sSig0 w15 + w16) % M32) :: acc)

def schedule (block : List Nat) : List Nat :=
  (extendW 48 block.reverse).reverse

def round256 (st : H8) (kw : Nat × Nat) : H8 :=
  let ch := (st.e &&& st.f) ^^^ (not32 st.e &&& st.g)
  let maj := (st.a &&& st.b) ^^^ (st.a &&& st.c) ^^^ (st.b &&& st.c)
  let t1 := (st.h + bSig1 st.e + ch + kw.1 + kw.2) % M32
  let t2 := (bSig0 st.a + maj) % M32
  { a := (t1 + t2) % M32, b := st.a, c := st.b, d := st.c,
    e := (st.d + t1) % M32, f := st.e, g := st.f, h := st.g }

def sha256Compress (st : H8) (block : List Nat) : H8 :=
  let w := schedule block
  let fin := (List.zip sha256K w).foldl round256 st
  { a := (st.a + fin.a) % M32, b := (st.b + fin.b) % M32, c := (st.c + fin.c) % M32,
    d := (st.d + fin.d) % M32, e := (st.e + fin.e) % M32, f := (st.f + fin.f) % M32,
    g := (st.g + fin.g) % M32, h := (st.h + fin.h) % M32 }

def sha256Init : H8 :=
  ⟨1779033703, 3144134277, 1013904242, 2773480762, 1359893119, 2600822924, 528734635, 1541459225⟩

def hexDigit : Nat → Char
  | 0 => '0' | 1 => '1' | 2 => '2' | 3 => '3' | 4 => '4' | 5 => '5' | 6 => '6' | 7 => '7'
  | 8 => '8' | 9 => '9' | 10 => 'a' | 11 => 'b' | 12 => 'c' | 13 => 'd' | 14 => 'e' | _ => 'f'

def wordToHexBE (w : Nat) : List Char :=
  [hexDigit ((w >>> 28) % 16), hexDigit ((w >>> 24) % 16), hexDigit ((w >>> 20) % 16),
   hexDigit ((w >>> 16) % 16), hexDigit ((w >>> 12) % 16), hexDigit ((w >>> 8) % 16),
   hexDigit ((w >>> 4) % 16), hexDigit (w % 16)]

/-- `hashlib.sha256(s.encode()).hexdigest()`. -/
def sha256Hex (s : String) : String :=
  let blocks := chunk16 (bytesToWordsBE (sha256Pad (utf8Encode s)))
  let h := blocks.foldl sha256Compress sha256Init
  ⟨wordToHexBE h.a ++ wordToHexBE h.b ++ wordToHexBE h.c ++ wordToHexBE h.d ++
   wordToHexBE h.e ++ wordToHexBE h.f ++ wordToHexBE h.g ++ wordToHexBE h.h⟩

/-! MD5 (little-endian), used by `CacheManager.generate_cache_key` to digest
the LoRA payload. -/

def md5K : List Nat :=
  [0xd76aa478, 0xe8c7b756, 0x242070db, 0xc1bdceee, 0xf57c0faf, 0x4787c62a, 0xa8304613, 0xfd469501,
   0x698098d8, 0x8b44f7af, 0xffff5bb1, 0x895cd7be, 0x6b901122, 0xfd987193, 0xa679438e, 0x49b40821,
   0xf61e2562, 0xc040b340, 0x265e5a51, 0xe9b6c7aa, 0xd62f105d, 0x02441453, 0xd8a1e681, 0xe7d3fbc8,
   0x21e1cde6, 0xc33707d6, 0xf4d50d87, 0x455a14ed, 0xa9e3e905, 0xfcefa3f8, 0x676f02d9, 0x8d2a4c8a,
   0xfffa3942, 0x8771f681, 0x6d9d6122, 0xfde5380c, 0xa4beea44, 0x4bdecfa9, 0xf6bb4b60, 0xbebfbc70,
   0x289b7ec6, 0xeaa127fa, 0xd4ef3085, 0x04881d05, 0xd9d4d039, 0xe6db99e5, 0x1fa27cf8, 0xc4ac5665,
   0xf4292244, 0x432aff97, 0xab9423a7, 0xfc93a039, 0x655b59c3, 0x8f0ccc92, 0xffeff47d, 0x85845dd1,
   0x6fa87e4f, 0xfe2ce6e0, 0xa3014314, 0x4e0811a1, 0xf7537e82, 0xbd3af235, 0x2ad7d2bb, 0xeb86d391]

def md5S : List Nat :=
  [7, 12, 17, 22, 7, 12, 17, 22, 7, 12, 17, 22, 7, 12, 17, 22,
   5, 9, 14, 20, 5, 9, 14, 20, 5, 9, 14, 20, 5, 9, 14, 20,
   4, 11, 16, 23, 4, 11, 16, 23, 4, 11, 16, 23, 4, 11, 16, 23,
   6, 10, 15, 21, 6, 10, 15, 21, 6, 10, 15, 21, 6, 10, 15, 21]

def md5Pad (msg : List Nat) : List Nat :=
  let len := msg.length
  let bitLen := (8 * len) % (2 ^ 64)
  msg ++ [128] ++ List.replicate (padZeroCount len) 0 ++
    [bitLen % 256, (bitLen >>> 8) % 256, (bitLen >>> 16) % 256, (bitLen >>> 24) % 256,
     (bitLen >>> 32) % 256, (bitLen >>> 40) % 256, (bitLen >>> 48) % 256, (bitLen >>> 56) % 256]

def bytesToWordsLE : List Nat → List Nat
  | b0 :: b1 :: b2 :: b3 :: rest =>
      (b0 ||| (b1 <<< 8) ||| (b2 <<< 16) ||| (b3 <<< 24)) :: bytesToWordsLE rest
  | _ => []

structure MD5St where
  a : Nat
  b : Nat
  c : Nat
  d : Nat
deriving DecidableEq

def md5Round (block : List Nat) (st : MD5St) (iks : Nat × Nat × Nat) : MD5St :=
  let i := iks.1
  let k := iks.2.1
  let s := iks.2.2
  let fg : Nat × Nat :=
    if i < 16 then ((st.b &&& st.c) ||| (not32 st.b &&& st.d), i)
    else if i < 32 then ((st.d &&& st.b) ||| (not32 st.d &&& st.c), (5 * i + 1) % 16)
    else if i < 48 then (st.b ^^^ st.c ^^^ st.d, (3 * i + 5) % 16)
    else (st.c ^^^ (st.b ||| not32 st.d), (7 * i) % 16)
  let f := (fg.1 + st.a + k + block.getD fg.2 0) % M32
  { a := st.d, b := (st.b + rotl32 f s) % M32, c := st.b, d := st.c }

def md5Compress (st : MD5St) (block : List Nat) : MD5St :=
  let fin := ((List.range 64).zip (md5K.zip md5S)).foldl (md5Round block) st
  { a := (st.a + fin.a) % M32, b := (st.b + fin.b) % M32,
    c := (st.c + fin.c) % M32, d := (st.d + fin.d) % M32 }

def md5Init : MD5St := ⟨0x67452301, 0xefcdab89, 0x98badcfe, 0x10325476⟩

def wordToHexLE (w : Nat) : List Char :=
  [hexDigit ((w >>> 4) % 16), hexDigit (w % 16),
   hexDigit ((w >>> 12) % 16), hexDigit ((w >>> 8) % 16),
   hexDigit ((w >>> 20) % 16), hexDigit ((w >>> 16) % 16),
   hexDigit ((w >>> 28) % 16), hexDigit ((w >>> 24) % 16)]

/-- `hashlib.md5(s.encode()).hexdigest()`. -/
def md5Hex (s : String) : String :=
  let blocks := chunk16 (bytesToWordsLE (md5Pad (utf8Encode s)))
  let h := blocks.foldl md5Compress md5Init
  ⟨wordToHexLE h.a ++ wordToHexLE h.b ++ wordToHexLE h.c ++ wordToHexLE h.d⟩

/-! ### A model of `json.dumps(..., sort_keys=True)` for the fingerprint dict

`CacheManager.generate_cache_key` serializes a seven-field dict with
`json.dumps(cache_data, sort_keys=True)`.  The serializer is modelled as:
render each entry as `"key": value` and join the entries, sorted by key, with
`", "` inside braces — exactly CPython's default separators and key ordering.
String values are escaped; the model escapes the two characters that can
occur in the rendered values (`"` and `\`), which like CPython's escaper
makes the rendering injective on strings. Python floats are modelled as
rationals, rendered injectively as `num/den` (CPython's `repr` of a float is
likewise injective on float values). -/

/-- Base-10 digits, least significant first, written with explicit fuel so
that it is structurally recursive (hence kernel-reducible); `natDigits` is
proved equal to `Nat.digits 10` below. -/
def digitsAux : Nat → Nat → List Nat
  | _, 0 => []
  | 0, _ + 1 => []
  | fuel + 1, n + 1 => ((n + 1) % 10) :: digitsAux fuel ((n + 1) / 10)

def natDigits (n : Nat) : List Nat := digitsAux n n

def natRepr (n : Nat) : String :=
  if n = 0 then "0" else ⟨((natDigits n).map hexDigit).reverse⟩

/-- `str(i)` for a Python int. -/
def intRepr (i : Int) : String :=
  if i < 0 then "-" ++ natRepr i.natAbs else natRepr i.natAbs

/-- Rendering of a (float-valued) number, modelled on rationals. -/
def ratRepr (q : ℚ) : String := intRepr q.num ++ "/" ++ natRepr q.den

def jsonEscapeChar (c : Char) : List Char :=
  if c = '"' ∨ c = '\\' then ['\\', c] else [c]

def jsonEscape (s : String) : String := ⟨s.data.flatMap jsonEscapeChar⟩

/-- JSON values occurring in the fingerprint dict. -/
inductive JVal where
  | jnull : JVal
  | jint : Int → JVal
  | jrat : ℚ → JVal
  | jstr : String → JVal
deriving DecidableEq

def renderJVal : JVal → String
  | .jnull => "null"
  | .jint i => intRepr i
  | .jrat q => ratRepr q
  | .jstr s => "\"" ++ jsonEscape s ++ "\""

def jsonField (kv : String × JVal) : String := "\"" ++ kv.1 ++ "\": " ++ renderJVal kv.2

/-- Lexicographic comparison of key strings by code point, as CPython compares
`str` keys when sorting. -/
def lexLe : List Char → List Char → Bool
  | [], _ => true
  | _ :: _, [] => false
  | a :: as, b :: bs =>
    if a.toNat < b.toNat then true
    else if b.toNat < a.toNat then false
    else lexLe as bs

def keyLe (a b : String) : Bool := lexLe a.data b.data

def fieldLe (a b : String × JVal) : Prop := keyLe a.1 b.1 = true

instance : DecidableRel fieldLe := fun a b => by unfold fieldLe; infer_instance

/-- `", ".join(fields)`. -/
def joinFields : List String → String
  | [] => ""
  | [x] => x
  | x :: y :: rest => x ++ ", " ++ joinFields (y :: rest)

/-- `json.dumps(d, sort_keys=True)` on a dict given as its entry list in
insertion order. -/
def dumpsSorted (l : List (String × JVal)) : String :=
  "\x7b" ++ joinFields ((List.insertionSort fieldLe l).map jsonField) ++ "\x7d"

/-! ### CacheManager.generate_cache_key (src/utils.py lines 306-321) -/

/-- The semantic parameters of `generate_cache_key(prompt, width, height,
steps, guidance, seed, lora_data)`.  `lora` carries the raw `lora_data`
payload when it is a string (the base64/URL forms used by the API). -/
structure CacheParams where
  prompt : String
  width : Int
  height : Int
  steps : Int
  guidance : ℚ
  seed : Option Int
  lora : Option String
deriving DecidableEq

/-- Python truthiness of `lora_data` for a string payload: `None` and the
empty string are falsy. -/
def loraTruthy : Option String → Bool
  | none => false
  | some s => !(s == "")

/-- The `'lora'` entry: `hashlib.md5(str(lora_data).encode()).hexdigest() if
lora_data else None`; `str` is the identity on strings. -/
def loraJVal (lora : Option String) : JVal :=
  match lora with
  | none => .jnull
  | some s => if s = "" then .jnull else .jstr (md5Hex s)

def optIntJVal : Option Int → JVal
  | none => .jnull
  | some i => .jint i

/-- The `cache_data` dict literal, in source insertion order. -/
def cacheDataFields (p : CacheParams) : List (String × JVal) :=
  [("prompt", .jstr p.prompt),
   ("width", .jint p.width),
   ("height", .jint p.height),
   ("steps", .jint p.steps),
   ("guidance", .jrat p.guidance),
   ("seed", optIntJVal p.seed),
   ("lora", loraJVal p.lora)]

/-- `cache_string = json.dumps(cache_data, sort_keys=True)`. -/
def cacheString (p : CacheParams) : String := dumpsSorted (cacheDataFields p)

/-- `CacheManager.generate_cache_key`. -/
def generate_cache_key (p : CacheParams) : String :=
  "flux_cache:" ++ sha256Hex (cacheString p)

/-! ### Redis stores

A Redis keyspace is modelled as an association list, newest binding first:
`SET`/`SETEX` prepend, `GET` takes the first match.  TTLs matter only for the
rate-limiter windows (claims C4/C10); the task (2 h) and result-cache (24 h)
TTLs are irrelevant to every claim and are omitted from those stores. -/

def rget {α : Type} (st : List (String × α)) (k : String) : Option α :=
  (st.find? (fun e => e.1 == k)).map (·.2)

def rset {α : Type} (st : List (String × α)) (k : String) (v : α) : List (String × α) :=
  (k, v) :: st

/-! ### SecurityManager (src/utils.py lines 374-428) -/

/-- `self.rate_limit_window = 60`. -/
def rate_limit_window : Nat := 60

/-- The per-user ceiling used by `check_rate_limit`: the `rate_limit` of the
entry of `valid_api_keys` whose `user_id` matches, defaulting to 10. -/
def rate_limit_of (user_id : String) : Nat :=
  if user_id = "demo_user" then 10
  else if user_id = "premium_user" then 100
  else 10

/-- `f"rate_limit:{user_id}:{endpoint_type}"`. -/
def rl_key (user_id endpoint_type : String) : String :=
  "rate_limit:" ++ user_id ++ ":" ++ endpoint_type

/-- Rate-limiter keyspace: count and absolute expiry instant per key. -/
abbrev RateStore : Type := List (String × (Nat × Nat))

/-- `SecurityManager.check_rate_limit` over a reachable (non-raising) store at
time `now`.  `GET` sees a binding only while `now` is before its expiry;
`SETEX key window 1` installs count 1 expiring a window later; `INCR`
preserves the remaining TTL. -/
def check_rate_limit (user_id endpoint_type : String) (now : Nat) (st : RateStore) :
    Bool × RateStore :=
  match rget st (rl_key user_id endpoint_type) with
  | some (current_count, exp) =>
      if now < exp then
        if rate_limit_of user_id ≤ current_count then (false, st)
        else (true, rset st (rl_key user_id endpoint_type) (current_count + 1, exp))
      else (true, rset st (rl_key user_id endpoint_type) (1, now + rate_limit_window))
  | none => (true, rset st (rl_key user_id endpoint_type) (1, now + rate_limit_window))

/-- A sequence of `check_rate_limit` calls at the given instants. -/
def rlSeq (user_id endpoint_type : String) (times : List Nat) (st : RateStore) :
    List Bool × RateStore :=
  match times with
  | [] => ([], st)
  | t :: ts =>
      let r := check_rate_limit user_id endpoint_type t st
      let rs := rlSeq user_id endpoint_type ts r.2
      (r.1 :: rs.1, rs.2)

/-- The quota units consumed and still visible in the current window at `now`. -/
def rateCount (st : RateStore) (k : String) (now : Nat) : Nat :=
  match rget st k with
  | some (c, exp) => if now < exp then c else 0
  | none => 0

/-! ### Fallible Redis calls (claim C5)

`RResult` is the outcome of one Redis round trip: a value, or a raised
exception.  The `_f` variants re-run `check_rate_limit` and
`get_cached_result` with the outcome of each round trip supplied explicitly,
exactly mirroring the `try`/`except` structure of the source. -/

inductive RResult (α : Type) where
  | ok : α → RResult α
  | exn : String → RResult α
deriving DecidableEq

/-- The Redis round trips `check_rate_limit` may perform, in order:
`get(key)`, then either `setex(key, window, 1)` or `incr(key)`. -/
structure RateLimitCalls where
  getR : RResult (Option Nat)
  setexR : RResult Unit
  incrR : RResult Nat
deriving DecidableEq

/-- `SecurityManager.check_rate_limit` under fallible Redis: the `try` body
runs until it returns or a call raises; `except` returns `True` (fail-open). -/
def check_rate_limit_f (user_id : String) (calls : RateLimitCalls) : Bool :=
  let body : RResult Bool :=
    match calls.getR with
    | .exn e => .exn e
    | .ok none =>
        match calls.setexR with
        | .exn e => .exn e
        | .ok _ => .ok true
    | .ok (some current_count) =>
        if rate_limit_of user_id ≤ current_count then .ok false
        else
          match calls.incrR with
          | .exn e => .exn e
          | .ok _ => .ok true
  match body with
  | .ok b => b
  | .exn _ => true

/-! ### CacheManager (src/utils.py lines 298-372) -/

/-- A cached generation result, `{'image_url': ..., 'generation_time': ...}`
(stored JSON-serialized; the store is modelled typed, serialization is the
identity round trip). -/
structure CacheEntry where
  image_url : String
  generation_time : ℚ
deriving DecidableEq

abbrev CacheStore : Type := List (String × CacheEntry)

/-- `CacheManager.get_cached_result` over a reachable store. -/
def get_cached_result (cache : CacheStore) (cache_key : String) : Option CacheEntry :=
  rget cache cache_key

/-- `CacheManager.get_cached_result` under fallible Redis: `except` returns
`None` (fail-miss). -/
def get_cached_result_f (getC : RResult (Option CacheEntry)) : Option CacheEntry :=
  match getC with
  | .ok r => r
  | .exn _ => none

/-- `CacheManager.cache_result` (`setex` with the 24 h TTL, TTL omitted). -/
def cache_result (cache : CacheStore) (cache_key : String) (result_data : CacheEntry) :
    CacheStore :=
  rset cache cache_key result_data

/-- A task record as written by `update_task_status`: the fixed fields plus
the keyword arguments each call site passes. -/
structure TaskInfo where
  task_id : String
  status : String
  updated_at : Nat
  user_id : Option String
  output_path : Option String
  generation_time : Option ℚ
  error : Option String
deriving DecidableEq

abbrev TaskStore : Type := List (String × TaskInfo)

/-- `CacheManager.update_task_status`: unconditionally overwrites
`task:{task_id}` with a fresh record (`setex` with the 2 h TTL, TTL omitted).
The keyword arguments are modelled as explicit optional fields. -/
def update_task_status (tasks : TaskStore) (task_id status : String) (now : Nat)
    (user_id : Option String) (output_path : Option String)
    (generation_time : Option ℚ) (error : Option String) : TaskStore :=
  rset tasks ("task:" ++ task_id)
    ⟨task_id, status, now, user_id, output_path, generation_time, error⟩

/-- `CacheManager.get_task_info`. -/
def get_task_info (tasks : TaskStore) (task_id : String) : Option TaskInfo :=
  rget tasks ("task:" ++ task_id)

/-! ### app.py: configuration and time estimates -/

/-- `CONFIG['MAX_IMAGE_SIZE']` (env default 1024). -/
def MAX_IMAGE_SIZE : Int := 1024

/-- `CONFIG['MAX_VIDEO_DURATION']` (env default 30). -/
def MAX_VIDEO_DURATION : ℚ := 30

/-- Python `int()` on a float/rational: truncation toward zero. -/
def pyInt (q : ℚ) : Int := if q < 0 then ⌈q⌉ else ⌊q⌋

/-- `estimate_generation_time` (src/app.py lines 498-503). -/
def estimate_generation_time (width height num_steps : Int) : Int :=
  let base_time : ℚ := 10
  let pixel_factor : ℚ := (width * height : ℚ) / (512 * 512)
  let step_factor : ℚ := (num_steps : ℚ) / 50
  pyInt (base_time * pixel_factor * step_factor)

/-- `estimate_video_generation_time` (src/app.py lines 505-509). -/
def estimate_video_generation_time (duration : ℚ) (width height fps : Int) : Int :=
  let frames : Int := pyInt (duration * (fps : ℚ))
  let time_per_frame : ℚ := (estimate_generation_time width height 20 : ℚ) / 4
  pyInt ((frames : ℚ) * time_per_frame)

/-! ### app.py: request bodies, responses, jobs -/

/-- The JSON body of `/generate-image`; `none` models an absent key. -/
structure ImageReqBody where
  prompt : Option String
  width : Option Int
  height : Option Int
  num_inference_steps : Option Int
  guidance_scale : Option ℚ
  seed : Option Int
  lora : Option String
deriving DecidableEq

/-- The JSON body of `/generate-video`. -/
structure VideoReqBody where
  prompt : Option String
  duration : Option ℚ
  width : Option Int
  height : Option Int
  fps : Option Int
  seed : Option Int
  lora : Option String
deriving DecidableEq

/-- Responses of `/generate-image`, each constructor one `jsonify` site:
429, 400 with message, the synchronous cache-hit 200 (carrying the literal
`status`, `cached` and `generation_time` fields it returns), and the
asynchronous submission 200. -/
inductive ImageResp where
  | rateLimited : String → ImageResp
  | badRequest : String → ImageResp
  | cachedDone : (task_id status image_url : String) → (cached : Bool) →
      (generation_time : ℚ) → ImageResp
  | enqueued : (task_id status : String) → (estimated_time : Int) →
      (celery_task_id : String) → ImageResp
deriving DecidableEq

inductive VideoResp where
  | rateLimited : String → VideoResp
  | badRequest : String → VideoResp
  | enqueued : (task_id status : String) → (estimated_time : Int) →
      (celery_task_id : String) → VideoResp
deriving DecidableEq

/-- The argument record of `generate_image_task.delay(...)`. -/
structure ImageJob where
  task_id : String
  prompt : String
  width : Int
  height : Int
  num_inference_steps : Int
  guidance_scale : ℚ
  seed : Option Int
  lora_path : Option String
  cache_key : String
  user_id : String
deriving DecidableEq

/-- The argument record of `generate_video_task.delay(...)`. -/
structure VideoJob where
  task_id : String
  prompt : String
  duration : ℚ
  width : Int
  height : Int
  fps : Int
  seed : Option Int
  lora_path : Option String
  user_id : String
deriving DecidableEq

/-- Externally produced values consumed by one submission call:
`uuid.uuid4()`, the Celery-assigned task id, and the path returned by
`lora_manager.process_lora` (network/filesystem work outside this core). -/
structure SubmitOracle where
  task_id : String
  celery_id : String
  lora_path : Option String
deriving DecidableEq

/-- The shared Redis state: rate-limit windows, result cache, task registry. -/
structure SysState where
  rate : List (String × (Nat × Nat))
  cache : CacheStore
  tasks : TaskStore
deriving DecidableEq

/-! ### app.py: submission endpoints (lines 176-265 and 267-339) -/

/-- Parameter extraction of `generate_image` (src/app.py lines 202-208):
defaults for absent fields, clamping of width/height to `MAX_IMAGE_SIZE`. -/
def image_params (data : ImageReqBody) (prompt : String) : CacheParams :=
  ⟨prompt, min (data.width.getD 512) MAX_IMAGE_SIZE,
   min (data.height.getD 512) MAX_IMAGE_SIZE, data.num_inference_steps.getD 50,
   data.guidance_scale.getD (15 / 2 : ℚ), data.seed, data.lora⟩

/-- `/generate-image` (`generate_image`), returning the response, the state
after the call, and the job handed to Celery (if any). -/
def generate_image (user_id : String) (body : Option ImageReqBody) (o : SubmitOracle)
    (now : Nat) (st : SysState) : ImageResp × SysState × Option ImageJob :=
  if (check_rate_limit user_id "image" now st.rate).1 then
    match body with
    | none => (.badRequest "Prompt é obrigatório",
        { st with rate := (check_rate_limit user_id "image" now st.rate).2 }, none)
    | some data =>
      match data.prompt with
      | none => (.badRequest "Prompt é obrigatório",
          { st with rate := (check_rate_limit user_id "image" now st.rate).2 }, none)
      | some prompt =>
        if 1000 < prompt.length then
          (.badRequest "Prompt muito longo (máximo 1000 caracteres)",
           { st with rate := (check_rate_limit user_id "image" now st.rate).2 }, none)
        else if (image_params data prompt).steps < 1 ∨ 100 < (image_params data prompt).steps then
          (.badRequest "num_inference_steps deve estar entre 1 e 100",
           { st with rate := (check_rate_limit user_id "image" now st.rate).2 }, none)
        else
          match get_cached_result st.cache (generate_cache_key (image_params data prompt)) with
          | some cached_result =>
              (.cachedDone o.task_id "completed" cached_result.image_url true 0,
               { st with rate := (check_rate_limit user_id "image" now st.rate).2 }, none)
          | none =>
              (.enqueued o.task_id "processing"
                 (estimate_generation_time (image_params data prompt).width
                   (image_params data prompt).height (image_params data prompt).steps)
                 o.celery_id,
               { st with rate := (check_rate_limit user_id "image" now st.rate).2 },
               some ⟨o.task_id, prompt, (image_params data prompt).width,
                 (image_params data prompt).height, (image_params data prompt).steps,
                 (image_params data prompt).guidance, data.seed,
                 if loraTruthy data.lora then o.lora_path else none,
                 generate_cache_key (image_params data prompt), user_id⟩)
  else (.rateLimited "Rate limit excedido",
    { st with rate := (check_rate_limit user_id "image" now st.rate).2 }, none)

/-- `/generate-video` (`generate_video`).  There is no result-cache lookup on
this path. -/
def generate_video (user_id : String) (body : Option VideoReqBody) (o : SubmitOracle)
    (now : Nat) (st : SysState) : VideoResp × SysState × Option VideoJob :=
  if (check_rate_limit user_id "video" now st.rate).1 then
    match body with
    | none => (.badRequest "Prompt e duration são obrigatórios",
        { st with rate := (check_rate_limit user_id "video" now st.rate).2 }, none)
    | some data =>
      match data.prompt, data.duration with
      | some prompt, some dur =>
          if min dur MAX_VIDEO_DURATION ≤ 0 ∨ MAX_VIDEO_DURATION < min dur MAX_VIDEO_DURATION then
            (.badRequest "Duration deve estar entre 0 e 30 segundos",
             { st with rate := (check_rate_limit user_id "video" now st.rate).2 }, none)
          else if data.fps.getD 24 < 1 ∨ 60 < data.fps.getD 24 then
            (.badRequest "FPS deve estar entre 1 e 60",
             { st with rate := (check_rate_limit user_id "video" now st.rate).2 }, none)
          else
            (.enqueued o.task_id "processing"
               (estimate_video_generation_time (min dur MAX_VIDEO_DURATION)
                 (min (data.width.getD 512) MAX_IMAGE_SIZE)
                 (min (data.height.getD 512) MAX_IMAGE_SIZE) (data.fps.getD 24))
               o.celery_id,
             { st with rate := (check_rate_limit user_id "video" now st.rate).2 },
             some ⟨o.task_id, prompt, min dur MAX_VIDEO_DURATION,
               min (data.width.getD 512) MAX_IMAGE_SIZE,
               min (data.height.getD 512) MAX_IMAGE_SIZE, data.fps.getD 24, data.seed,
               if loraTruthy data.lora then o.lora_path else none, user_id⟩)
      | _, _ => (.badRequest "Prompt e duration são obrigatórios",
          { st with rate := (check_rate_limit user_id "video" now st.rate).2 }, none)
  else (.rateLimited "Rate limit excedido",
    { st with rate := (check_rate_limit user_id "video" now st.rate).2 }, none)

/-! ### app.py: Celery workers (lines 390-444 and 446-496) -/

/-- Outcome of the generation attempt inside the worker's `try` block after
the `processing` update: either the Generator/storage collaborators succeed
(with the measured wall-clock duration) or some step raises. -/
inductive GenOutcome where
  | success : ℚ → GenOutcome
  | failure : String → GenOutcome
deriving DecidableEq

/-- `generate_image_task`: returns the new state and the list of statuses it
wrote to the Task Registry, in order.  `nowP`/`nowF` are the instants of the
two `update_task_status` calls.  On failure the exception is re-raised to
Celery after the `failed` update (no further registry effect). -/
def generate_image_task (out : GenOutcome) (j : ImageJob) (nowP nowF : Nat)
    (st : SysState) : SysState × List String :=
  let tasks1 := update_task_status st.tasks j.task_id "processing" nowP
    (some j.user_id) none none none
  match out with
  | .success generation_time =>
      let output_path := "/app/outputs/" ++ j.task_id ++ ".png"
      let result_data : CacheEntry := ⟨"/task/" ++ j.task_id ++ "/result", generation_time⟩
      let cache2 := cache_result st.cache j.cache_key result_data
      let tasks2 := update_task_status tasks1 j.task_id "completed" nowF
        (some j.user_id) (some output_path) (some generation_time) none
      ({ st with cache := cache2, tasks := tasks2 }, ["processing", "completed"])
  | .failure e =>
      let tasks2 := update_task_status tasks1 j.task_id "failed" nowF
        (some j.user_id) none none (some e)
      ({ st with tasks := tasks2 }, ["processing", "failed"])

/-- `generate_video_task`: like the image worker but writes no result-cache
entry on success. -/
def generate_video_task (out : GenOutcome) (j : VideoJob) (nowP nowF : Nat)
    (st : SysState) : SysState × List String :=
  let tasks1 := update_task_status st.tasks j.task_id "processing" nowP
    (some j.user_id) none none none
  match out with
  | .success generation_time =>
      let video_path := "/app/outputs/" ++ j.task_id ++ ".mp4"
      let tasks2 := update_task_status tasks1 j.task_id "completed" nowF
        (some j.user_id) (some video_path) (some generation_time) none
      ({ st with tasks := tasks2 }, ["processing", "completed"])
  | .failure e =>
      let tasks2 := update_task_status tasks1 j.task_id "failed" nowF
        (some j.user_id) none none (some e)
      ({ st with tasks := tasks2 }, ["processing", "failed"])

/-! ### app.py: status and result endpoints (lines 341-387) -/

inductive StatusResp where
  | notFound : String → StatusResp
  | ok : TaskInfo → StatusResp
deriving DecidableEq

/-- `/task/task_id/status` (`get_task_status`). -/
def get_task_status (task_id user_id : String) (st : SysState) : StatusResp :=
  match get_task_info st.tasks task_id with
  | none => .notFound "Tarefa não encontrada"
  | some task_info =>
      if task_info.user_id ≠ some user_id then .notFound "Tarefa não encontrada"
      else .ok task_info

inductive ResultResp where
  | notFound : String → ResultResp
  | notCompleted : String → ResultResp
  | fileMissing : String → ResultResp
  | fileDownload : (path download_name : String) → ResultResp
deriving DecidableEq

/-- `file_path.split('.')[-1]`. -/
def extOf (p : String) : String := (p.splitOn ".").getLastD ""

/-- `/task/task_id/result` (`get_task_result`); `fileExists` models
`os.path.exists`. -/
def get_task_result (task_id user_id : String) (fileExists : String → Bool)
    (st : SysState) : ResultResp :=
  match get_task_info st.tasks task_id with
  | none => .notFound "Tarefa não encontrada"
  | some task_info =>
      if task_info.user_id ≠ some user_id then .notFound "Tarefa não encontrada"
      else if task_info.status ≠ "completed" then
        .notCompleted "Tarefa ainda não foi completada"
      else
        match task_info.output_path with
        | none => .fileMissing "Arquivo de resultado não encontrado"
        | some file_path =>
            if fileExists file_path then
              .fileDownload file_path (task_id ++ "." ++ extOf file_path)
            else .fileMissing "Arquivo de resultado não encontrado"

/-! ### Auxiliary notions used in theorem statements -/

/-- The lifecycle order of the spec: `queued` before `processing` before the
terminal states. -/
def stateRank (s : String) : Nat :=
  if s = "queued" then 0 else if s = "processing" then 1 else 2

/-- The state sequences the claim C2 allows: prefixes of
`queued, processing, completed` or of `queued, processing, failed`. -/
def isClaimedLifecycle (l : List String) : Bool :=
  l.isPrefixOf ["queued", "processing", "completed"] ||
  l.isPrefixOf ["queued", "processing", "failed"]

/-- The empty system state. -/
def sysState0 : SysState := ⟨[], [], []⟩

/-- The spec's reference scenario body (guidance supplied as the integral
value 8 so that concrete runs evaluate inside the kernel): prompt
"a red cube", 512x512, 50 steps, seed 42, no LoRA. -/
def exBody : ImageReqBody := ⟨some "a red cube", some 512, some 512, some 50,
  some (8 : ℚ), some 42, none⟩

def exOracle : SubmitOracle := ⟨"task-1", "celery-1", none⟩

def exOracle2 : SubmitOracle := ⟨"task-2", "celery-2", none⟩

/-- A concrete job record (the cache key plays no role in trace claims). -/
def exJob : ImageJob :=
  ⟨"task-1", "a red cube", 512, 512, 50, (8 : ℚ), some 42, none, "k", "demo_user"⟩

/-- The system state after a first submission of `data` followed by a
successful worker run for the enqueued job `j`: used to state the
idempotent-caching round trip of claim C6. -/
def post_first_generation (uid : String) (data : ImageReqBody) (o1 : SubmitOracle)
    (n1 n2 n3 : Nat) (st : SysState) (t : ℚ) (j : ImageJob) : SysState :=
  (generate_image_task (.success t) j n2 n3 (generate_image uid (some data) o1 n1 st).2.1).1

/-- A state whose result cache already holds an entry for the reference
scenario's fingerprint (as written by an earlier completed generation with
task id "task-0"). -/
def exHitState : SysState :=
  ⟨[], [(generate_cache_key (image_params exBody "a red cube"),
         ⟨"/task/task-0/result", 3⟩)], []⟩

/-- A state whose registry holds one completed task owned by "userA". -/
def exOwnedState : SysState :=
  ⟨[], [], [("task:t9", ⟨"t9", "completed", 5, some "userA",
    some "/app/outputs/t9.png", some 3, none⟩)]⟩

/-- The ten decimal digit characters. -/
def digitChars : List Char := ['0', '1', '2', '3', '4', '5', '6', '7', '8', '9']

/-- Decoder for `jsonEscapeChar` output, used to show the escaping is
injective. -/
def unescChars : List Char → List Char
  | [] => []
  | [c] => [c]
  | a :: b :: rest => if a = '\\' then b :: unescChars rest else a :: unescChars (b :: rest)

/-!
## Theorems

First the auxiliary lemma layer (digit rendering, JSON escaping, sorting),
then one theorem per claim.
-/

lemma digitsAux_eq : ∀ fuel n, n ≤ fuel → digitsAux fuel n = Nat.digits 10 n := by
  intro fuel
  induction fuel with
  | zero =>
      intro n hn
      have h0 : n = 0 := by omega
      subst h0
      simp [digitsAux]
  | succ f ih =>
      intro n hn
      match n with
      | 0 => simp [digitsAux]
      | m + 1 =>
          rw [Nat.digits_def' (b := 10) (by norm_num) (Nat.succ_pos m)]
          show ((m + 1) % 10) :: digitsAux f ((m + 1) / 10) = _
          have hlt : (m + 1) / 10 < m + 1 := Nat.div_lt_self (Nat.succ_pos m) (by norm_num)
          rw [ih ((m + 1) / 10) (by omega)]

lemma natDigits_eq (n : Nat) : natDigits n = Nat.digits 10 n := digitsAux_eq n n le_rfl

lemma natDigits_lt10 (n : Nat) : ∀ d ∈ natDigits n, d < 10 := by
  rw [natDigits_eq]
  exact fun d hd => Nat.digits_lt_base (by norm_num) hd

lemma natDigits_inj {m n : Nat} (h : natDigits m = natDigits n) : m = n := by
  rw [natDigits_eq, natDigits_eq] at h
  have h2 := congrArg (Nat.ofDigits 10) h
  rwa [Nat.ofDigits_digits, Nat.ofDigits_digits] at h2

lemma natDigits_ne_nil {n : Nat} (hn : n ≠ 0) : natDigits n ≠ [] := by
  rw [natDigits_eq]
  simpa [Nat.digits_ne_nil_iff_ne_zero] using hn

lemma hexDigit_lt10_inj : ∀ d1 < 10, ∀ d2 < 10, hexDigit d1 = hexDigit d2 → d1 = d2 := by
  decide

lemma hexDigit_mem_digitChars : ∀ d < 10, hexDigit d ∈ digitChars := by decide

lemma map_hexDigit_inj : ∀ {l₁ l₂ : List Nat}, (∀ d ∈ l₁, d < 10) → (∀ d ∈ l₂, d < 10) →
    l₁.map hexDigit = l₂.map hexDigit → l₁ = l₂ := by
  intro l₁
  induction l₁ with
  | nil =>
      intro l₂ _ _ h
      cases l₂ with
      | nil => rfl
      | cons b u => simp at h
  | cons a t ih =>
      intro l₂ h1 h2 h
      cases l₂ with
      | nil => simp at h
      | cons b u =>
          simp only [List.map_cons, List.cons.injEq] at h
          have ha : a = b := hexDigit_lt10_inj a (h1 a (List.mem_cons_self a t)) b
            (h2 b (List.mem_cons_self b u)) h.1
          have ht : t = u := ih (fun d hd => h1 d (List.mem_cons_of_mem a hd))
            (fun d hd => h2 d (List.mem_cons_of_mem b hd)) h.2
          rw [ha, ht]

lemma natRepr_data (n : Nat) :
    (natRepr n).data = if n = 0 then ['0'] else ((natDigits n).map hexDigit).reverse := by
  unfold natRepr
  split <;> rfl

lemma natRepr_mem (n : Nat) : ∀ c ∈ (natRepr n).data, c ∈ digitChars := by
  rw [natRepr_data]
  split
  · intro c hc
    simp only [List.mem_singleton] at hc
    subst hc
    decide
  · intro c hc
    rw [List.mem_reverse, List.mem_map] at hc
    obtain ⟨d, hd, rfl⟩ := hc
    exact hexDigit_mem_digitChars d (natDigits_lt10 n d hd)

lemma natRepr_data_ne_nil (n : Nat) : (natRepr n).data ≠ [] := by
  rw [natRepr_data]
  split
  · simp
  · rename_i hn
    intro h
    rw [List.reverse_eq_nil_iff, List.map_eq_nil_iff] at h
    exact natDigits_ne_nil hn h

lemma natRepr_data_inj {m n : Nat} (h : (natRepr m).data = (natRepr n).data) : m = n := by
  rw [natRepr_data, natRepr_data] at h
  by_cases hm : m = 0 <;> by_cases hn : n = 0
  · omega
  · exfalso
    rw [if_pos hm, if_neg hn] at h
    have h2 : (natDigits n).map hexDigit = ['0'] := by
      have h3 := congrArg List.reverse h
      simpa using h3.symm
    have hlen : (natDigits n).length = 1 := by
      have h4 := congrArg List.length h2
      simpa using h4
    obtain ⟨d, hdig⟩ := List.length_eq_one.mp hlen
    rw [hdig] at h2
    simp only [List.map_cons, List.map_nil, List.cons.injEq, and_true] at h2
    have hdlt : d < 10 := natDigits_lt10 n d (by rw [hdig]; exact List.mem_cons_self d [])
    have hd0 : d = 0 := hexDigit_lt10_inj d hdlt 0 (by norm_num) (by rw [h2]; rfl)
    subst hd0
    apply hn
    have h5 : Nat.digits 10 n = [0] := by rw [← natDigits_eq, hdig]
    have h6 := Nat.ofDigits_digits 10 n
    rw [h5] at h6
    simpa [Nat.ofDigits] using h6.symm
  · exfalso
    rw [if_neg hm, if_pos hn] at h
    have h2 : (natDigits m).map hexDigit = ['0'] := by
      have h3 := congrArg List.reverse h
      simpa using h3
    have hlen : (natDigits m).length = 1 := by
      have h4 := congrArg List.length h2
      simpa using h4
    obtain ⟨d, hdig⟩ := List.length_eq_one.mp hlen
    rw [hdig] at h2
    simp only [List.map_cons, List.map_nil, List.cons.injEq, and_true] at h2
    have hdlt : d < 10 := natDigits_lt10 m d (by rw [hdig]; exact List.mem_cons_self d [])
    have hd0 : d = 0 := hexDigit_lt10_inj d hdlt 0 (by norm_num) (by rw [h2]; rfl)
    subst hd0
    apply hm
    have h5 : Nat.digits 10 m = [0] := by rw [← natDigits_eq, hdig]
    have h6 := Nat.ofDigits_digits 10 m
    rw [h5] at h6
    simpa [Nat.ofDigits] using h6.symm
  · rw [if_neg hm, if_neg hn] at h
    have h2 : (natDigits m).map hexDigit = (natDigits n).map hexDigit :=
      List.reverse_injective h
    exact natDigits_inj (map_hexDigit_inj (natDigits_lt10 m) (natDigits_lt10 n) h2)

lemma intRepr_data (i : Int) :
    (intRepr i).data =
      if i < 0 then '-' :: (natRepr i.natAbs).data else (natRepr i.natAbs).data := by
  unfold intRepr
  have hdash : ("-" : String).data = ['-'] := rfl
  split <;> simp [String.data_append, hdash]

lemma intRepr_mem (i : Int) : ∀ c ∈ (intRepr i).data, c ∈ '-' :: digitChars := by
  rw [intRepr_data]
  split
  · intro c hc
    rcases List.mem_cons.mp hc with h | h
    · subst h; exact List.mem_cons_self _ _
    · exact List.mem_cons_of_mem _ (natRepr_mem _ c h)
  · intro c hc
    exact List.mem_cons_of_mem _ (natRepr_mem _ c hc)

lemma intRepr_data_ne_nil (i : Int) : (intRepr i).data ≠ [] := by
  rw [intRepr_data]
  split
  · simp
  · exact natRepr_data_ne_nil _

lemma intRepr_data_inj {i j : Int} (h : (intRepr i).data = (intRepr j).data) : i = j := by
  rw [intRepr_data, intRepr_data] at h
  by_cases hi : i < 0 <;> by_cases hj : j < 0
  · rw [if_pos hi, if_pos hj] at h
    simp only [List.cons.injEq, true_and] at h
    have := natRepr_data_inj h
    omega
  · exfalso
    rw [if_pos hi, if_neg hj] at h
    have hmem : '-' ∈ (natRepr j.natAbs).data := by
      rw [← h]; exact List.mem_cons_self _ _
    have := natRepr_mem _ '-' hmem
    revert this
    decide
  · exfalso
    rw [if_neg hi, if_pos hj] at h
    have hmem : '-' ∈ (natRepr i.natAbs).data := by
      rw [h]; exact List.mem_cons_self _ _
    have := natRepr_mem _ '-' hmem
    revert this
    decide
  · rw [if_neg hi, if_neg hj] at h
    have := natRepr_data_inj h
    omega

lemma natRepr_ne_slash (n : Nat) : ∀ c ∈ (natRepr n).data, c ≠ '/' := by
  intro c hc hslash
  subst hslash
  have := natRepr_mem n '/' hc
  revert this
  decide

lemma intRepr_ne_slash (i : Int) : ∀ c ∈ (intRepr i).data, c ≠ '/' := by
  intro c hc hslash
  subst hslash
  have := intRepr_mem i '/' hc
  revert this
  decide

lemma append_slash_inj : ∀ (a1 a2 b1 b2 : List Char), (∀ c ∈ a1, c ≠ '/') →
    (∀ c ∈ a2, c ≠ '/') → a1 ++ '/' :: b1 = a2 ++ '/' :: b2 → a1 = a2 ∧ b1 = b2 := by
  intro a1
  induction a1 with
  | nil =>
      intro a2 b1 b2 _ h2 h
      cases a2 with
      | nil => simpa using h
      | cons x xs =>
          exfalso
          simp only [List.nil_append, List.cons_append, List.cons.injEq] at h
          exact h2 x (List.mem_cons_self x xs) h.1.symm
  | cons x xs ih =>
      intro a2 b1 b2 h1 h2 h
      cases a2 with
      | nil =>
          exfalso
          simp only [List.nil_append, List.cons_append, List.cons.injEq] at h
          exact h1 x (List.mem_cons_self x xs) h.1
      | cons y ys =>
          simp only [List.cons_append, List.cons.injEq] at h
          obtain ⟨hxy, htail⟩ := h
          have := ih ys b1 b2 (fun c hc => h1 c (List.mem_cons_of_mem x hc))
            (fun c hc => h2 c (List.mem_cons_of_mem y hc)) htail
          exact ⟨by rw [hxy, this.1], this.2⟩

lemma ratRepr_data_inj {q r : ℚ} (h : (ratRepr q).data = (ratRepr r).data) : q = r := by
  unfold ratRepr at h
  have hslash : ("/" : String).data = ['/'] := rfl
  rw [String.data_append, String.data_append, String.data_append, String.data_append,
    hslash] at h
  simp only [List.append_assoc, List.singleton_append] at h
  have hsplit := append_slash_inj _ _ _ _ (intRepr_ne_slash q.num) (intRepr_ne_slash r.num) h
  have hnum : q.num = r.num := intRepr_data_inj hsplit.1
  have hden : q.den = r.den := natRepr_data_inj hsplit.2
  exact Rat.ext hnum hden

lemma jsonEscapeChar_ne_nil (c : Char) : jsonEscapeChar c ≠ [] := by
  unfold jsonEscapeChar
  split <;> simp

lemma flatMap_esc_eq_nil {l : List Char} (h : l.flatMap jsonEscapeChar = []) : l = [] := by
  cases l with
  | nil => rfl
  | cons c t =>
      exfalso
      rw [List.flatMap_cons] at h
      exact jsonEscapeChar_ne_nil c (List.append_eq_nil.mp h).1

lemma unesc_esc : ∀ l : List Char, unescChars (l.flatMap jsonEscapeChar) = l := by
  intro l
  induction l with
  | nil => rfl
  | cons c t ih =>
      rw [List.flatMap_cons]
      by_cases h : c = '"' ∨ c = '\\'
      · rw [jsonEscapeChar, if_pos h]
        show unescChars ('\\' :: c :: t.flatMap jsonEscapeChar) = c :: t
        rw [show unescChars ('\\' :: c :: t.flatMap jsonEscapeChar)
            = if '\\' = '\\' then c :: unescChars (t.flatMap jsonEscapeChar)
              else '\\' :: unescChars (c :: t.flatMap jsonEscapeChar) from rfl,
          if_pos rfl, ih]
      · rw [jsonEscapeChar, if_neg h]
        have hc : c ≠ '\\' := fun hcc => h (Or.inr hcc)
        cases hR : t.flatMap jsonEscapeChar with
        | nil =>
            have ht : t = [] := flatMap_esc_eq_nil hR
            subst ht
            rfl
        | cons d R =>
            show unescChars (c :: d :: R) = c :: t
            rw [show unescChars (c :: d :: R)
                = if c = '\\' then d :: unescChars R else c :: unescChars (d :: R) from rfl,
              if_neg hc, ← hR, ih]

lemma jsonEscape_data_inj {s1 s2 : String}
    (h : (jsonEscape s1).data = (jsonEscape s2).data) : s1 = s2 := by
  apply String.ext
  have h2 : s1.data.flatMap jsonEscapeChar = s2.data.flatMap jsonEscapeChar := h
  have h3 := congrArg unescChars h2
  rwa [unesc_esc, unesc_esc] at h3

lemma charEq_of_toNat_eq {c d : Char} (h : c.toNat = d.toNat) : c = d :=
  Char.eq_of_val_eq (UInt32.eq_of_toBitVec_eq (BitVec.eq_of_toNat_eq h))

lemma lexLe_total : ∀ as bs : List Char, lexLe as bs = true ∨ lexLe bs as = true := by
  intro as
  induction as with
  | nil => intro bs; left; rfl
  | cons a t ih =>
      intro bs
      cases bs with
      | nil => right; rfl
      | cons b u =>
          rcases Nat.lt_trichotomy a.toNat b.toNat with h | h | h
          · left; simp [lexLe, h]
          · have h1 : ¬ a.toNat < b.toNat := by omega
            have h2 : ¬ b.toNat < a.toNat := by omega
            simpa [lexLe, h1, h2] using ih u
          · right; simp [lexLe, h]

lemma lexLe_cons_eq (a b : Char) (t u : List Char) :
    lexLe (a :: t) (b :: u) =
      if a.toNat < b.toNat then true
      else if b.toNat < a.toNat then false
      else lexLe t u := rfl

lemma lexLe_cons_le {a b : Char} {t u : List Char}
    (h : lexLe (a :: t) (b :: u) = true) : a.toNat ≤ b.toNat := by
  by_contra hh
  push_neg at hh
  rw [lexLe_cons_eq, if_neg (by omega), if_pos hh] at h
  exact absurd h Bool.false_ne_true

lemma lexLe_cons_tail {a b : Char} {t u : List Char}
    (h : lexLe (a :: t) (b :: u) = true) (hba : b.toNat ≤ a.toNat) :
    lexLe t u = true := by
  have hab := lexLe_cons_le h
  rw [lexLe_cons_eq, if_neg (by omega), if_neg (by omega)] at h
  exact h

lemma lexLe_trans : ∀ as bs cs : List Char, lexLe as bs = true → lexLe bs cs = true →
    lexLe as cs = true := by
  intro as
  induction as with
  | nil => intro bs cs _ _; rfl
  | cons a t ih =>
      intro bs cs h1 h2
      cases bs with
      | nil => exact absurd h1 (by rw [show lexLe (a :: t) [] = false from rfl]; decide)
      | cons b u =>
          cases cs with
          | nil => exact absurd h2 (by rw [show lexLe (b :: u) [] = false from rfl]; decide)
          | cons c v =>
              have hab := lexLe_cons_le h1
              have hbc := lexLe_cons_le h2
              by_cases hac : a.toNat < c.toNat
              · rw [lexLe_cons_eq, if_pos hac]
              · have hcb : c.toNat ≤ b.toNat := by omega
                have hba : b.toNat ≤ a.toNat := by omega
                rw [lexLe_cons_eq, if_neg hac, if_neg (by omega)]
                exact ih u v (lexLe_cons_tail h1 hba) (lexLe_cons_tail h2 hcb)

lemma lexLe_antisymm : ∀ as bs : List Char, lexLe as bs = true → lexLe bs as = true →
    as = bs := by
  intro as
  induction as with
  | nil =>
      intro bs _ h2
      cases bs with
      | nil => rfl
      | cons b u => exact absurd h2 (by rw [show lexLe (b :: u) [] = false from rfl]; decide)
  | cons a t ih =>
      intro bs h1 h2
      cases bs with
      | nil => exact absurd h1 (by rw [show lexLe (a :: t) [] = false from rfl]; decide)
      | cons b u =>
          have hab := lexLe_cons_le h1
          have hba := lexLe_cons_le h2
          have heq : a.toNat = b.toNat := by omega
          rw [charEq_of_toNat_eq heq, ih u (lexLe_cons_tail h1 hba) (lexLe_cons_tail h2 hab)]

lemma keyLe_antisymm {a b : String} (h1 : keyLe a b = true) (h2 : keyLe b a = true) :
    a = b :=
  String.ext (lexLe_antisymm a.data b.data h1 h2)

instance : IsTotal (String × JVal) fieldLe :=
  ⟨fun a b => lexLe_total a.1.data b.1.data⟩

instance : IsTrans (String × JVal) fieldLe :=
  ⟨fun a b c h1 h2 => lexLe_trans a.1.data b.1.data c.1.data h1 h2⟩

lemma sorted_perm_nodupkeys_eq : ∀ {l₁ l₂ : List (String × JVal)}, l₁.Perm l₂ →
    l₁.Sorted fieldLe → l₂.Sorted fieldLe → (l₁.map Prod.fst).Nodup → l₁ = l₂ := by
  intro l₁
  induction l₁ with
  | nil =>
      intro l₂ hp _ _ _
      exact hp.nil_eq
  | cons a t ih =>
      intro l₂ hp hs1 hs2 hn
      cases l₂ with
      | nil => exact absurd hp.symm.nil_eq (by simp)
      | cons b u =>
          by_cases hab : a = b
          · subst hab
            have hperm := hp.cons_inv
            rw [ih hperm (List.Sorted.of_cons hs1) (List.Sorted.of_cons hs2)
              ((List.nodup_cons.mp hn).2)]
          · exfalso
            have hbmem : b ∈ a :: t := hp.mem_iff.mpr (List.mem_cons_self b u)
            have hamem : a ∈ b :: u := hp.mem_iff.mp (List.mem_cons_self a t)
            have hb_t : b ∈ t := by
              rcases List.mem_cons.mp hbmem with h | h
              · exact absurd h.symm hab
              · exact h
            have ha_u : a ∈ u := by
              rcases List.mem_cons.mp hamem with h | h
              · exact absurd h hab
              · exact h
            have h1 : fieldLe a b := List.rel_of_sorted_cons hs1 b hb_t
            have h2 : fieldLe b a := List.rel_of_sorted_cons hs2 a ha_u
            have hkey : a.1 = b.1 := keyLe_antisymm h1 h2
            have hmem2 : a.1 ∈ t.map Prod.fst := by
              rw [hkey]
              exact List.mem_map_of_mem Prod.fst hb_t
            exact (List.nodup_cons.mp hn).1 hmem2

lemma cacheDataFields_keys (p : CacheParams) :
    (cacheDataFields p).map Prod.fst =
      ["prompt", "width", "height", "steps", "guidance", "seed", "lora"] := rfl

lemma insertionSort_cacheData_perm {p : CacheParams} {l : List (String × JVal)}
    (h : l.Perm (cacheDataFields p)) :
    List.insertionSort fieldLe l = List.insertionSort fieldLe (cacheDataFields p) := by
  have hperm : (List.insertionSort fieldLe l).Perm (List.insertionSort fieldLe
      (cacheDataFields p)) :=
    (List.perm_insertionSort fieldLe l).trans
      (h.trans (List.perm_insertionSort fieldLe (cacheDataFields p)).symm)
  apply sorted_perm_nodupkeys_eq hperm (List.sorted_insertionSort fieldLe l)
    (List.sorted_insertionSort fieldLe (cacheDataFields p))
  have hkeysperm : ((List.insertionSort fieldLe l).map Prod.fst).Perm
      ((cacheDataFields p).map Prod.fst) :=
    ((List.perm_insertionSort fieldLe l).trans h).map Prod.fst
  rw [hkeysperm.nodup_iff, cacheDataFields_keys]
  decide

/-- Sorting the seven fixed entries puts them in alphabetical key order. -/
lemma sort_cacheData (p : CacheParams) :
    List.insertionSort fieldLe (cacheDataFields p) =
      [("guidance", JVal.jrat p.guidance), ("height", JVal.jint p.height),
       ("lora", loraJVal p.lora), ("prompt", JVal.jstr p.prompt),
       ("seed", optIntJVal p.seed), ("steps", JVal.jint p.steps),
       ("width", JVal.jint p.width)] := by
  rfl

/-- The canonical serialization, decomposed into its literal separators and
rendered field values at the character-list level. -/
lemma renderJVal_jrat (q : ℚ) : renderJVal (JVal.jrat q) = ratRepr q := rfl

lemma renderJVal_jint (i : Int) : renderJVal (JVal.jint i) = intRepr i := rfl

lemma cacheString_data (p : CacheParams) :
    (cacheString p).data =
      ("\x7b" : String).data ++ (
      ("\"" : String).data ++ (
      ("guidance" : String).data ++ (
      ("\": " : String).data ++ (
      (ratRepr p.guidance).data ++ (
      (", " : String).data ++ (
      ("\"" : String).data ++ (
      ("height" : String).data ++ (
      ("\": " : String).data ++ (
      (intRepr p.height).data ++ (
      (", " : String).data ++ (
      ("\"" : String).data ++ (
      ("lora" : String).data ++ (
      ("\": " : String).data ++ (
      (renderJVal (loraJVal p.lora)).data ++ (
      (", " : String).data ++ (
      ("\"" : String).data ++ (
      ("prompt" : String).data ++ (
      ("\": " : String).data ++ (
      (renderJVal (JVal.jstr p.prompt)).data ++ (
      (", " : String).data ++ (
      ("\"" : String).data ++ (
      ("seed" : String).data ++ (
      ("\": " : String).data ++ (
      (renderJVal (optIntJVal p.seed)).data ++ (
      (", " : String).data ++ (
      ("\"" : String).data ++ (
      ("steps" : String).data ++ (
      ("\": " : String).data ++ (
      (intRepr p.steps).data ++ (
      (", " : String).data ++ (
      ("\"" : String).data ++ (
      ("width" : String).data ++ (
      ("\": " : String).data ++ (
      (intRepr p.width).data ++ (
      ("\x7d" : String).data))))))))))))))))))))))))))))))))))) := by
  unfold cacheString dumpsSorted
  rw [sort_cacheData]
  simp only [List.map_cons, List.map_nil, joinFields, jsonField, renderJVal_jrat,
    renderJVal_jint, String.data_append, List.append_assoc]

lemma renderJVal_jstr_data (s : String) :
    (renderJVal (JVal.jstr s)).data = ['"'] ++ ((jsonEscape s).data ++ ['"']) := by
  show (("\"" ++ jsonEscape s ++ "\"" : String)).data = _
  simp [String.data_append, List.append_assoc]

lemma renderJVal_jstr_data_inj {s1 s2 : String}
    (h : (renderJVal (JVal.jstr s1)).data = (renderJVal (JVal.jstr s2)).data) : s1 = s2 := by
  rw [renderJVal_jstr_data, renderJVal_jstr_data] at h
  replace h := List.append_cancel_left h
  replace h := List.append_cancel_right h
  exact jsonEscape_data_inj h

lemma renderJVal_jstr_data_ne_null (s : String) :
    (renderJVal (JVal.jstr s)).data ≠ (renderJVal JVal.jnull).data := by
  rw [renderJVal_jstr_data,
    show (renderJVal JVal.jnull).data = ['n', 'u', 'l', 'l'] from rfl]
  intro h
  simp at h

lemma optIntJVal_render_inj {a b : Option Int}
    (h : (renderJVal (optIntJVal a)).data = (renderJVal (optIntJVal b)).data) : a = b := by
  cases a with
  | none =>
      cases b with
      | none => rfl
      | some j =>
          exfalso
          have h' : ("null" : String).data = (intRepr j).data := h
          have hm : 'n' ∈ (intRepr j).data := by
            rw [← h']
            decide
          have := intRepr_mem j 'n' hm
          revert this
          decide
  | some i =>
      cases b with
      | none =>
          exfalso
          have h' : (intRepr i).data = ("null" : String).data := h
          have hm : 'n' ∈ (intRepr i).data := by
            rw [h']
            decide
          have := intRepr_mem i 'n' hm
          revert this
          decide
      | some j =>
          have h' : (intRepr i).data = (intRepr j).data := h
          rw [intRepr_data_inj h']

lemma cacheString_ne_of_guidance {p q : CacheParams}
    (hh : p.height = q.height) (hl : p.lora = q.lora) (hp : p.prompt = q.prompt)
    (hse : p.seed = q.seed) (hst : p.steps = q.steps) (hw : p.width = q.width)
    (hne : p.guidance ≠ q.guidance) : cacheString p ≠ cacheString q := by
  intro h
  apply hne
  have hd : (cacheString p).data = (cacheString q).data := congrArg String.data h
  rw [cacheString_data p, cacheString_data q, hh, hl, hp, hse, hst, hw] at hd
  repeat replace hd := List.append_cancel_left hd
  replace hd := List.append_cancel_right hd
  exact ratRepr_data_inj hd

lemma cacheString_ne_of_height {p q : CacheParams}
    (hg : p.guidance = q.guidance) (hl : p.lora = q.lora) (hp : p.prompt = q.prompt)
    (hse : p.seed = q.seed) (hst : p.steps = q.steps) (hw : p.width = q.width)
    (hne : p.height ≠ q.height) : cacheString p ≠ cacheString q := by
  intro h
  apply hne
  have hd : (cacheString p).data = (cacheString q).data := congrArg String.data h
  rw [cacheString_data p, cacheString_data q, hg, hl, hp, hse, hst, hw] at hd
  repeat replace hd := List.append_cancel_left hd
  replace hd := List.append_cancel_right hd
  exact intRepr_data_inj hd

lemma cacheString_ne_of_lora_digest {p q : CacheParams} {s1 s2 : String}
    (hl1 : p.lora = some s1) (hl2 : q.lora = some s2) (hs1 : s1 ≠ "") (hs2 : s2 ≠ "")
    (hmd : md5Hex s1 ≠ md5Hex s2)
    (hg : p.guidance = q.guidance) (hh : p.height = q.height) (hp : p.prompt = q.prompt)
    (hse : p.seed = q.seed) (hst : p.steps = q.steps) (hw : p.width = q.width) :
    cacheString p ≠ cacheString q := by
  intro h
  apply hmd
  have hd : (cacheString p).data = (cacheString q).data := congrArg String.data h
  rw [cacheString_data p, cacheString_data q, hg, hh, hp, hse, hst, hw] at hd
  rw [show loraJVal p.lora = JVal.jstr (md5Hex s1) by rw [hl1]; simp [loraJVal, hs1],
    show loraJVal q.lora = JVal.jstr (md5Hex s2) by rw [hl2]; simp [loraJVal, hs2]] at hd
  repeat replace hd := List.append_cancel_left hd
  replace hd := List.append_cancel_right hd
  exact renderJVal_jstr_data_inj hd

lemma cacheString_ne_of_lora_presence {p q : CacheParams} {s1 : String}
    (hl1 : p.lora = some s1) (hs1 : s1 ≠ "") (hl2 : q.lora = none)
    (hg : p.guidance = q.guidance) (hh : p.height = q.height) (hp : p.prompt = q.prompt)
    (hse : p.seed = q.seed) (hst : p.steps = q.steps) (hw : p.width = q.width) :
    cacheString p ≠ cacheString q := by
  intro h
  have hd : (cacheString p).data = (cacheString q).data := congrArg String.data h
  rw [cacheString_data p, cacheString_data q, hg, hh, hp, hse, hst, hw] at hd
  rw [show loraJVal p.lora = JVal.jstr (md5Hex s1) by rw [hl1]; simp [loraJVal, hs1],
    show loraJVal q.lora = JVal.jnull by rw [hl2]; rfl] at hd
  repeat replace hd := List.append_cancel_left hd
  replace hd := List.append_cancel_right hd
  exact renderJVal_jstr_data_ne_null (md5Hex s1) hd

lemma cacheString_ne_of_prompt {p q : CacheParams}
    (hg : p.guidance = q.guidance) (hh : p.height = q.height) (hl : p.lora = q.lora)
    (hse : p.seed = q.seed) (hst : p.steps = q.steps) (hw : p.width = q.width)
    (hne : p.prompt ≠ q.prompt) : cacheString p ≠ cacheString q := by
  intro h
  apply hne
  have hd : (cacheString p).data = (cacheString q).data := congrArg String.data h
  rw [cacheString_data p, cacheString_data q, hg, hh, hl, hse, hst, hw] at hd
  repeat replace hd := List.append_cancel_left hd
  replace hd := List.append_cancel_right hd
  exact renderJVal_jstr_data_inj hd

lemma cacheString_ne_of_seed {p q : CacheParams}
    (hg : p.guidance = q.guidance) (hh : p.height = q.height) (hl : p.lora = q.lora)
    (hp : p.prompt = q.prompt) (hst : p.steps = q.steps) (hw : p.width = q.width)
    (hne : p.seed ≠ q.seed) : cacheString p ≠ cacheString q := by
  intro h
  apply hne
  have hd : (cacheString p).data = (cacheString q).data := congrArg String.data h
  rw [cacheString_data p, cacheString_data q, hg, hh, hl, hp, hst, hw] at hd
  repeat replace hd := List.append_cancel_left hd
  replace hd := List.append_cancel_right hd
  exact optIntJVal_render_inj hd

lemma cacheString_ne_of_steps {p q : CacheParams}
    (hg : p.guidance = q.guidance) (hh : p.height = q.height) (hl : p.lora = q.lora)
    (hp : p.prompt = q.prompt) (hse : p.seed = q.seed) (hw : p.width = q.width)
    (hne : p.steps ≠ q.steps) : cacheString p ≠ cacheString q := by
  intro h
  apply hne
  have hd : (cacheString p).data = (cacheString q).data := congrArg String.data h
  rw [cacheString_data p, cacheString_data q, hg, hh, hl, hp, hse, hw] at hd
  repeat replace hd := List.append_cancel_left hd
  replace hd := List.append_cancel_right hd
  exact intRepr_data_inj hd

lemma cacheString_ne_of_width {p q : CacheParams}
    (hg : p.guidance = q.guidance) (hh : p.height = q.height) (hl : p.lora = q.lora)
    (hp : p.prompt = q.prompt) (hse : p.seed = q.seed) (hst : p.steps = q.steps)
    (hne : p.width ≠ q.width) : cacheString p ≠ cacheString q := by
  intro h
  apply hne
  have hd : (cacheString p).data = (cacheString q).data := congrArg String.data h
  rw [cacheString_data p, cacheString_data q, hg, hh, hl, hp, hse, hst] at hd
  repeat replace hd := List.append_cancel_left hd
  replace hd := List.append_cancel_right hd
  exact intRepr_data_inj hd

lemma dumpsSorted_perm_eq {p : CacheParams} {l : List (String × JVal)}
    (h : l.Perm (cacheDataFields p)) : dumpsSorted l = cacheString p := by
  unfold cacheString dumpsSorted
  rw [insertionSort_cacheData_perm h]

/-- Claim C3: the cache-key fingerprint is a pure deterministic function of
the request parameters with the documented canonical form
`"flux_cache:" ++ SHA-256(serialization)`; supplying the dict fields in any
permuted order yields the identical key string; an absent optional field
(seed, LoRA) renders as the fixed sentinel `null`; and changing any single
semantic field (prompt, width, height, steps, guidance, seed, adapter
digest) changes the canonical serialization — hence the key, whenever the
SHA-256 digests of the two serializations differ (as the spec's
collision-resistance assumption provides). -/
theorem C3_cache_key_fingerprint (p q : CacheParams) (l : List (String × JVal)) :
    (generate_cache_key p = "flux_cache:" ++ sha256Hex (cacheString p)) ∧
    (l.Perm (cacheDataFields p) →
      "flux_cache:" ++ sha256Hex (dumpsSorted l) = generate_cache_key p) ∧
    (p.seed = none → renderJVal (optIntJVal p.seed) = "null") ∧
    (p.lora = none → renderJVal (loraJVal p.lora) = "null") ∧
    (p.height = q.height → p.lora = q.lora → p.prompt = q.prompt → p.seed = q.seed →
      p.steps = q.steps → p.width = q.width → p.guidance ≠ q.guidance →
      cacheString p ≠ cacheString q) ∧
    (p.guidance = q.guidance → p.lora = q.lora → p.prompt = q.prompt → p.seed = q.seed →
      p.steps = q.steps → p.width = q.width → p.height ≠ q.height →
      cacheString p ≠ cacheString q) ∧
    (∀ s1 s2 : String, p.lora = some s1 → q.lora = some s2 → s1 ≠ "" → s2 ≠ "" →
      md5Hex s1 ≠ md5Hex s2 → p.guidance = q.guidance → p.height = q.height →
      p.prompt = q.prompt → p.seed = q.seed → p.steps = q.steps → p.width = q.width →
      cacheString p ≠ cacheString q) ∧
    (∀ s1 : String, p.lora = some s1 → s1 ≠ "" → q.lora = none →
      p.guidance = q.guidance → p.height = q.height → p.prompt = q.prompt →
      p.seed = q.seed → p.steps = q.steps → p.width = q.width →
      cacheString p ≠ cacheString q) ∧
    (p.guidance = q.guidance → p.height = q.height → p.lora = q.lora → p.seed = q.seed →
      p.steps = q.steps → p.width = q.width → p.prompt ≠ q.prompt →
      cacheString p ≠ cacheString q) ∧
    (p.guidance = q.guidance → p.height = q.height → p.lora = q.lora →
      p.prompt = q.prompt → p.steps = q.steps → p.width = q.width → p.seed ≠ q.seed →
      cacheString p ≠ cacheString q) ∧
    (p.guidance = q.guidance → p.height = q.height → p.lora = q.lora →
      p.prompt = q.prompt → p.seed = q.seed → p.width = q.width → p.steps ≠ q.steps →
      cacheString p ≠ cacheString q) ∧
    (p.guidance = q.guidance → p.height = q.height → p.lora = q.lora →
      p.prompt = q.prompt → p.seed = q.seed → p.steps = q.steps → p.width ≠ q.width →
      cacheString p ≠ cacheString q) ∧
    (sha256Hex (cacheString p) ≠ sha256Hex (cacheString q) →
      generate_cache_key p ≠ generate_cache_key q) := by
  refine ⟨rfl, ?_, fun h => by rw [h]; rfl, fun h => by rw [h]; rfl,
    fun hh hl hp2 hse hst hw hne => cacheString_ne_of_guidance hh hl hp2 hse hst hw hne,
    fun hg hl hp2 hse hst hw hne => cacheString_ne_of_height hg hl hp2 hse hst hw hne,
    fun s1 s2 h1 h2 h3 h4 h5 hg hh hp2 hse hst hw =>
      cacheString_ne_of_lora_digest h1 h2 h3 h4 h5 hg hh hp2 hse hst hw,
    fun s1 h1 h2 h3 hg hh hp2 hse hst hw =>
      cacheString_ne_of_lora_presence h1 h2 h3 hg hh hp2 hse hst hw,
    fun hg hh hl hse hst hw hne => cacheString_ne_of_prompt hg hh hl hse hst hw hne,
    fun hg hh hl hp2 hst hw hne => cacheString_ne_of_seed hg hh hl hp2 hst hw hne,
    fun hg hh hl hp2 hse hw hne => cacheString_ne_of_steps hg hh hl hp2 hse hw hne,
    fun hg hh hl hp2 hse hst hne => cacheString_ne_of_width hg hh hl hp2 hse hst hne,
    ?_⟩
  · intro hperm
    rw [dumpsSorted_perm_eq hperm]
    rfl
  · intro hne h
    apply hne
    have hd := congrArg String.data h
    unfold generate_cache_key at hd
    rw [String.data_append, String.data_append] at hd
    exact String.ext (List.append_cancel_left hd)

set_option maxRecDepth 100000 in
/-- Witness for C3 at the spec's reference scenario: a permuted field order
yields the same key, and changing the prompt, or the LoRA digest, changes
the serialization and the key. -/
theorem C3_cache_key_fingerprint_witness :
    ("flux_cache:" ++ sha256Hex (dumpsSorted
        [("width", JVal.jint 512), ("prompt", JVal.jstr "a red cube"),
         ("height", JVal.jint 512), ("steps", JVal.jint 50),
         ("guidance", JVal.jrat (8 : ℚ)), ("seed", optIntJVal (some 42)),
         ("lora", loraJVal none)]) =
      generate_cache_key ⟨"a red cube", 512, 512, 50, (8 : ℚ), some 42, none⟩) ∧
    cacheString ⟨"a red cube", 512, 512, 50, (8 : ℚ), some 42, none⟩ ≠
      cacheString ⟨"a blue cube", 512, 512, 50, (8 : ℚ), some 42, none⟩ ∧
    generate_cache_key ⟨"a red cube", 512, 512, 50, (8 : ℚ), some 42, none⟩ ≠
      generate_cache_key ⟨"a blue cube", 512, 512, 50, (8 : ℚ), some 42, none⟩ ∧
    cacheString ⟨"a red cube", 512, 512, 50, (8 : ℚ), some 42, some "lora-A"⟩ ≠
      cacheString ⟨"a red cube", 512, 512, 50, (8 : ℚ), some 42, some "lora-B"⟩ ∧
    renderJVal (optIntJVal
      (⟨"a red cube", 512, 512, 50, (8 : ℚ), none, none⟩ : CacheParams).seed) =
      "null" := by
  obtain ⟨hcanon, horder, hsent, hloranull, hgN, hhN, hdig, hpres, hprompt, hseedN,
    hstepsN, hwidthN, hkey⟩ :=
    C3_cache_key_fingerprint
      ⟨"a red cube", 512, 512, 50, (8 : ℚ), some 42, none⟩
      ⟨"a blue cube", 512, 512, 50, (8 : ℚ), some 42, none⟩
      [("width", JVal.jint 512), ("prompt", JVal.jstr "a red cube"),
       ("height", JVal.jint 512), ("steps", JVal.jint 50),
       ("guidance", JVal.jrat (8 : ℚ)), ("seed", optIntJVal (some 42)),
       ("lora", loraJVal none)]
  obtain ⟨-, -, -, -, -, -, hdig2, -, -, -, -, -, -⟩ :=
    C3_cache_key_fingerprint
      ⟨"a red cube", 512, 512, 50, (8 : ℚ), some 42, some "lora-A"⟩
      ⟨"a red cube", 512, 512, 50, (8 : ℚ), some 42, some "lora-B"⟩ []
  obtain ⟨-, -, hsent2, -⟩ :=
    C3_cache_key_fingerprint
      ⟨"a red cube", 512, 512, 50, (8 : ℚ), none, none⟩
      ⟨"a red cube", 512, 512, 50, (8 : ℚ), none, none⟩ []
  refine ⟨horder (by decide), hprompt rfl rfl rfl rfl rfl rfl (by decide),
    hkey (by decide),
    hdig2 "lora-A" "lora-B" rfl rfl (by decide) (by decide) (by decide)
      rfl rfl rfl rfl rfl rfl,
    hsent2 rfl⟩

/-! ### Rate limiter lemmas (claim C4) -/

lemma rget_rset_self {α : Type} (st : List (String × α)) (k : String) (v : α) :
    rget (rset st k v) k = some v := by
  simp [rget, rset, List.find?]

lemma rate_limit_of_pos (u : String) : 1 ≤ rate_limit_of u := by
  unfold rate_limit_of
  split_ifs <;> norm_num

lemma check_fresh {u e : String} {now : Nat} {st : RateStore}
    (h : rget st (rl_key u e) = none) :
    check_rate_limit u e now st =
      (true, rset st (rl_key u e) (1, now + rate_limit_window)) := by
  simp [check_rate_limit, h]

lemma check_expired {u e : String} {now : Nat} {st : RateStore} {c exp : Nat}
    (hc : rget st (rl_key u e) = some (c, exp)) (h : exp ≤ now) :
    check_rate_limit u e now st =
      (true, rset st (rl_key u e) (1, now + rate_limit_window)) := by
  simp [check_rate_limit, hc, show ¬ now < exp by omega]

lemma check_incr {u e : String} {now : Nat} {st : RateStore} {c exp : Nat}
    (hc : rget st (rl_key u e) = some (c, exp)) (hlt : now < exp)
    (hceil : c < rate_limit_of u) :
    check_rate_limit u e now st = (true, rset st (rl_key u e) (c + 1, exp)) := by
  simp [check_rate_limit, hc, hlt, Nat.not_le.mpr hceil]

lemma check_reject {u e : String} {now : Nat} {st : RateStore} {c exp : Nat}
    (hc : rget st (rl_key u e) = some (c, exp)) (hlt : now < exp)
    (hceil : rate_limit_of u ≤ c) :
    check_rate_limit u e now st = (false, st) := by
  simp [check_rate_limit, hc, hlt, hceil]

lemma rlSeq_window {u e : String} : ∀ (ts : List Nat) (st : RateStore) (c exp : Nat),
    rget st (rl_key u e) = some (c, exp) → (∀ t ∈ ts, t < exp) →
    c + ts.length ≤ rate_limit_of u →
    (rlSeq u e ts st).1 = List.replicate ts.length true ∧
    rget (rlSeq u e ts st).2 (rl_key u e) = some (c + ts.length, exp) := by
  intro ts
  induction ts with
  | nil =>
      intro st c exp hc _ _
      exact ⟨rfl, by simpa using hc⟩
  | cons t ts ih =>
      intro st c exp hc hts hlen
      have hlen2 : c + (ts.length + 1) ≤ rate_limit_of u := by simpa using hlen
      have hr : check_rate_limit u e t st = (true, rset st (rl_key u e) (c + 1, exp)) :=
        check_incr hc (hts t (List.mem_cons_self t ts)) (by omega)
      have hnext := ih (rset st (rl_key u e) (c + 1, exp)) (c + 1) exp
        (rget_rset_self _ _ _) (fun x hx => hts x (List.mem_cons_of_mem t hx))
        (by omega)
      unfold rlSeq
      rw [hr]
      refine ⟨?_, ?_⟩
      · simp only [List.length_cons, List.replicate_succ, List.cons.injEq]
        exact ⟨trivial, hnext.1⟩
      · rw [hnext.2, List.length_cons]
        simp only [Option.some.injEq, Prod.mk.injEq]
        exact ⟨by omega, trivial⟩

/-- Claim C4: fixed-window rate limiting.  Starting with no live window for
the user/operation-class key, the first request is admitted and sets the
counter to 1 with expiry one window length (60 s) later; the next
`ceiling - 1` requests inside the window are all admitted, incrementing the
counter up to the ceiling; the (ceiling+1)-th request inside the window is
rejected with the store untouched (no increment); and the next request at or
after the expiry instant is admitted with the counter reset to 1. -/
theorem C4_fixed_window_rate_limit (u e : String) (t0 tRej tNew : Nat)
    (mid : List Nat) (st0 : RateStore)
    (h0 : rget st0 (rl_key u e) = none)
    (hmid : ∀ t ∈ mid, t < t0 + rate_limit_window)
    (hlen : mid.length = rate_limit_of u - 1)
    (hRej : tRej < t0 + rate_limit_window)
    (hNew : t0 + rate_limit_window ≤ tNew) :
    let r0 := check_rate_limit u e t0 st0
    let rm := rlSeq u e mid r0.2
    let rj := check_rate_limit u e tRej rm.2
    let rn := check_rate_limit u e tNew rm.2
    r0.1 = true ∧
    rget r0.2 (rl_key u e) = some (1, t0 + rate_limit_window) ∧
    rm.1 = List.replicate mid.length true ∧
    rget rm.2 (rl_key u e) = some (rate_limit_of u, t0 + rate_limit_window) ∧
    rj.1 = false ∧ rj.2 = rm.2 ∧
    rn.1 = true ∧
    rget rn.2 (rl_key u e) = some (1, tNew + rate_limit_window) := by
  intro r0 rm rj rn
  have hNpos := rate_limit_of_pos u
  have hr0 : r0 = (true, rset st0 (rl_key u e) (1, t0 + rate_limit_window)) :=
    check_fresh h0
  have hr0c : rget r0.2 (rl_key u e) = some (1, t0 + rate_limit_window) := by
    rw [hr0]
    exact rget_rset_self _ _ _
  have hlen2 : 1 + mid.length ≤ rate_limit_of u := by
    rw [hlen]
    omega
  have hwin := rlSeq_window mid r0.2 1 (t0 + rate_limit_window) hr0c hmid hlen2
  have hrmc : rget rm.2 (rl_key u e) = some (rate_limit_of u, t0 + rate_limit_window) := by
    rw [hwin.2]
    simp only [Option.some.injEq, Prod.mk.injEq]
    exact ⟨by rw [hlen]; omega, trivial⟩
  have hrj : rj = (false, rm.2) := check_reject hrmc hRej le_rfl
  have hrn : rn = (true, rset rm.2 (rl_key u e) (1, tNew + rate_limit_window)) :=
    check_expired hrmc hNew
  refine ⟨by rw [hr0], hr0c, hwin.1, hrmc, by rw [hrj], by rw [hrj], by rw [hrn], ?_⟩
  rw [hrn]
  exact rget_rset_self _ _ _

/-- Witness for C4: the demo user (ceiling 10), eleven requests in one
60-second window starting at the empty store, then one after expiry. -/
theorem C4_fixed_window_rate_limit_witness :
    let r0 := check_rate_limit "demo_user" "image" 0 []
    let rm := rlSeq "demo_user" "image" [1, 2, 3, 4, 5, 6, 7, 8, 9] r0.2
    let rj := check_rate_limit "demo_user" "image" 59 rm.2
    let rn := check_rate_limit "demo_user" "image" 60 rm.2
    r0.1 = true ∧
    rget r0.2 (rl_key "demo_user" "image") = some (1, 60) ∧
    rm.1 = List.replicate 9 true ∧
    rget rm.2 (rl_key "demo_user" "image") = some (10, 60) ∧
    rj.1 = false ∧ rj.2 = rm.2 ∧
    rn.1 = true ∧
    rget rn.2 (rl_key "demo_user" "image") = some (1, 120) := by
  exact C4_fixed_window_rate_limit "demo_user" "image" 0 59 60
    [1, 2, 3, 4, 5, 6, 7, 8, 9] [] (by rfl) (by decide) (by rfl) (by decide) (by decide)

/-- Claim C5: transient backing-store (Redis) failures are absorbed on the
request path.  If the rate limiter's `get` raises, or its `setex` raises on
the first-request path, or its `incr` raises on the increment path, the
request is admitted (`check_rate_limit` returns true — fail-open); if the
result-cache `get` raises, the lookup reports a miss (`get_cached_result`
returns `None` — fail-miss), so the request degrades to a fresh generation
instead of failing. -/
theorem C5_store_failure_fail_open (u : String) (calls : RateLimitCalls) (e : String)
    (getC : RResult (Option CacheEntry)) :
    (calls.getR = .exn e → check_rate_limit_f u calls = true) ∧
    (calls.getR = .ok none → calls.setexR = .exn e → check_rate_limit_f u calls = true) ∧
    (∀ c : Nat, calls.getR = .ok (some c) → c < rate_limit_of u →
      calls.incrR = .exn e → check_rate_limit_f u calls = true) ∧
    (getC = .exn e → get_cached_result_f getC = none) := by
  refine ⟨?_, ?_, ?_, ?_⟩
  · intro h
    simp [check_rate_limit_f, h]
  · intro h1 h2
    simp [check_rate_limit_f, h1, h2]
  · intro c h1 h2 h3
    simp [check_rate_limit_f, h1, h3, Nat.not_le.mpr h2]
  · intro h
    simp [get_cached_result_f, h]

/-- Witness for C5: each failing call pattern concretely yields admit/miss. -/
theorem C5_store_failure_fail_open_witness :
    check_rate_limit_f "demo_user" ⟨.exn "boom", .ok (), .ok 2⟩ = true ∧
    check_rate_limit_f "demo_user" ⟨.ok none, .exn "boom", .ok 2⟩ = true ∧
    check_rate_limit_f "demo_user" ⟨.ok (some 3), .ok (), .exn "boom"⟩ = true ∧
    get_cached_result_f (.exn "boom" : RResult (Option CacheEntry)) = none := by
  refine ⟨(C5_store_failure_fail_open "demo_user" ⟨.exn "boom", .ok (), .ok 2⟩ "boom"
      (.exn "boom")).1 rfl,
    (C5_store_failure_fail_open "demo_user" ⟨.ok none, .exn "boom", .ok 2⟩ "boom"
      (.exn "boom")).2.1 rfl rfl,
    (C5_store_failure_fail_open "demo_user" ⟨.ok (some 3), .ok (), .exn "boom"⟩ "boom"
      (.exn "boom")).2.2.1 3 rfl (by decide) rfl,
    (C5_store_failure_fail_open "demo_user" ⟨.exn "boom", .ok (), .ok 2⟩ "boom"
      (.exn "boom")).2.2.2 rfl⟩

/-! ### Time estimates (claim C8) -/

/-- Claim C8 counterexample: the claim asserts the image estimate "is never
below the 10-second base", but `estimate_generation_time(256, 256, 50)`
computes `int(10 * 0.25 * 1.0) = 2 < 10` — there is no lower clamp in the
code. -/
theorem C8_estimate_counterexample :
    estimate_generation_time 256 256 50 = 2 ∧ estimate_generation_time 256 256 50 < 10 := by
  have h : estimate_generation_time 256 256 50 = 2 := by
    show pyInt ((10 : ℚ) * (((256 : Int) * 256 : ℚ) / (512 * 512)) * (((50 : Int) : ℚ) / 50)) = 2
    unfold pyInt
    norm_num
  exact ⟨h, by rw [h]; norm_num⟩

/-- Claim C8 (amended): the image estimate is the integer truncation (floor,
on nonnegative inputs) of a quantity that scales linearly with pixel count
relative to the 512x512 baseline and with step count relative to the 50-step
baseline (base constant 10 s at the baseline), with no lower clamp; the
video estimate multiplies the per-frame estimate — taken at the reduced step
count 20 and divided by the 4x speed-optimization factor — by the frame
count `int(duration * fps)`, so duration 30 and fps 24 give 720 frames. -/
theorem C8_time_estimates (w h s fps : Int) (d : ℚ)
    (hw : 0 ≤ w) (hh : 0 ≤ h) (hs : 0 ≤ s) (hf : 0 ≤ fps) (hd : 0 ≤ d) :
    estimate_generation_time w h s =
      ⌊(10 : ℚ) * ((w * h : ℚ) / (512 * 512)) * ((s : ℚ) / 50)⌋ ∧
    (10 : ℚ) * ((w * h : ℚ) / (512 * 512)) * ((s : ℚ) / 50) =
      (10 * (w * h) * s : ℚ) / (512 * 512 * 50) ∧
    estimate_generation_time 512 512 50 = 10 ∧
    estimate_video_generation_time d w h fps =
      ⌊(⌊d * (fps : ℚ)⌋ : ℚ) * ((estimate_generation_time w h 20 : ℚ) / 4)⌋ ∧
    pyInt ((30 : ℚ) * (24 : ℚ)) = 720 ∧
    estimate_video_generation_time 30 512 512 24 = 720 := by
  have hq : (0 : ℚ) ≤ (10 : ℚ) * ((w * h : ℚ) / (512 * 512)) * ((s : ℚ) / 50) := by
    have hw' : (0 : ℚ) ≤ (w : ℚ) := by exact_mod_cast hw
    have hh' : (0 : ℚ) ≤ (h : ℚ) := by exact_mod_cast hh
    have hs' : (0 : ℚ) ≤ (s : ℚ) := by exact_mod_cast hs
    positivity
  have h1 : estimate_generation_time w h s =
      ⌊(10 : ℚ) * ((w * h : ℚ) / (512 * 512)) * ((s : ℚ) / 50)⌋ := by
    show pyInt ((10 : ℚ) * ((w * h : ℚ) / (512 * 512)) * ((s : ℚ) / 50)) = _
    unfold pyInt
    rw [if_neg (by exact not_lt.mpr hq)]
  have hbase : estimate_generation_time 512 512 50 = 10 := by
    show pyInt ((10 : ℚ) * (((512 : Int) * 512 : ℚ) / (512 * 512)) * (((50 : Int) : ℚ) / 50)) = 10
    unfold pyInt
    norm_num
  have hq20 : (0 : ℚ) ≤ (10 : ℚ) * ((w * h : ℚ) / (512 * 512)) * (((20 : Int) : ℚ) / 50) := by
    have hw' : (0 : ℚ) ≤ (w : ℚ) := by exact_mod_cast hw
    have hh' : (0 : ℚ) ≤ (h : ℚ) := by exact_mod_cast hh
    positivity
  have hest20 : (0 : Int) ≤ estimate_generation_time w h 20 := by
    have : estimate_generation_time w h 20 =
        ⌊(10 : ℚ) * ((w * h : ℚ) / (512 * 512)) * (((20 : Int) : ℚ) / 50)⌋ := by
      show pyInt _ = _
      unfold pyInt
      rw [if_neg (by exact not_lt.mpr hq20)]
    rw [this]
    exact Int.floor_nonneg.mpr hq20
  have hdf : (0 : ℚ) ≤ d * (fps : ℚ) := mul_nonneg hd (by exact_mod_cast hf)
  have hframes : pyInt (d * (fps : ℚ)) = ⌊d * (fps : ℚ)⌋ := by
    unfold pyInt
    rw [if_neg (not_lt.mpr hdf)]
  have hvideo : estimate_video_generation_time d w h fps =
      ⌊(⌊d * (fps : ℚ)⌋ : ℚ) * ((estimate_generation_time w h 20 : ℚ) / 4)⌋ := by
    show pyInt ((pyInt (d * (fps : ℚ)) : ℚ) * ((estimate_generation_time w h 20 : ℚ) / 4)) = _
    rw [hframes]
    have hfl : (0 : ℚ) ≤ (⌊d * (fps : ℚ)⌋ : ℚ) := by
      exact_mod_cast Int.floor_nonneg.mpr hdf
    have hest' : (0 : ℚ) ≤ (estimate_generation_time w h 20 : ℚ) := by exact_mod_cast hest20
    have hprod : (0 : ℚ) ≤ (⌊d * (fps : ℚ)⌋ : ℚ) * ((estimate_generation_time w h 20 : ℚ) / 4) :=
      mul_nonneg hfl (div_nonneg hest' (by norm_num))
    unfold pyInt
    rw [if_neg (not_lt.mpr hprod)]
  have hfr : pyInt ((30 : ℚ) * (24 : ℚ)) = 720 := by
    unfold pyInt
    norm_num
  have hvid720 : estimate_video_generation_time 30 512 512 24 = 720 := by
    show pyInt ((pyInt ((30 : ℚ) * ((24 : Int) : ℚ)) : ℚ) *
      ((estimate_generation_time 512 512 20 : ℚ) / 4)) = 720
    have he : estimate_generation_time 512 512 20 = 4 := by
      show pyInt ((10 : ℚ) * (((512 : Int) * 512 : ℚ) / (512 * 512)) *
        (((20 : Int) : ℚ) / 50)) = 4
      unfold pyInt
      norm_num
    rw [he]
    have hf720 : pyInt ((30 : ℚ) * ((24 : Int) : ℚ)) = 720 := by
      unfold pyInt
      norm_num
    rw [hf720]
    unfold pyInt
    norm_num
  exact ⟨h1, by field_simp, hbase, hvideo, hfr, hvid720⟩

/-! ### Endpoint and worker characterizations (claims C1, C2, C6, C9, C10) -/

lemma generate_image_hit {uid : String} {data : ImageReqBody} {o : SubmitOracle}
    {now : Nat} {st : SysState} {prompt : String} {entry : CacheEntry}
    (hadm : (check_rate_limit uid "image" now st.rate).1 = true)
    (hp : data.prompt = some prompt)
    (hlen : ¬ 1000 < prompt.length)
    (hsteps : ¬ ((image_params data prompt).steps < 1 ∨ 100 < (image_params data prompt).steps))
    (hhit : get_cached_result st.cache (generate_cache_key (image_params data prompt)) =
      some entry) :
    generate_image uid (some data) o now st =
      (.cachedDone o.task_id "completed" entry.image_url true 0,
       { st with rate := (check_rate_limit uid "image" now st.rate).2 }, none) := by
  unfold generate_image
  rw [if_pos hadm]
  simp only [hp]
  rw [if_neg hlen, if_neg hsteps, hhit]

lemma generate_image_miss {uid : String} {data : ImageReqBody} {o : SubmitOracle}
    {now : Nat} {st : SysState} {prompt : String}
    (hadm : (check_rate_limit uid "image" now st.rate).1 = true)
    (hp : data.prompt = some prompt)
    (hlen : ¬ 1000 < prompt.length)
    (hsteps : ¬ ((image_params data prompt).steps < 1 ∨ 100 < (image_params data prompt).steps))
    (hmiss : get_cached_result st.cache (generate_cache_key (image_params data prompt)) =
      none) :
    generate_image uid (some data) o now st =
      (.enqueued o.task_id "processing"
         (estimate_generation_time (image_params data prompt).width
           (image_params data prompt).height (image_params data prompt).steps) o.celery_id,
       { st with rate := (check_rate_limit uid "image" now st.rate).2 },
       some ⟨o.task_id, prompt, (image_params data prompt).width,
         (image_params data prompt).height, (image_params data prompt).steps,
         (image_params data prompt).guidance, data.seed,
         if loraTruthy data.lora then o.lora_path else none,
         generate_cache_key (image_params data prompt), uid⟩) := by
  unfold generate_image
  rw [if_pos hadm]
  simp only [hp]
  rw [if_neg hlen, if_neg hsteps, hmiss]

lemma generate_image_tasks_unchanged (uid : String) (body : Option ImageReqBody)
    (o : SubmitOracle) (now : Nat) (st : SysState) :
    (generate_image uid body o now st).2.1.tasks = st.tasks := by
  unfold generate_image
  repeat' split
  all_goals rfl

lemma generate_image_cache_unchanged (uid : String) (body : Option ImageReqBody)
    (o : SubmitOracle) (now : Nat) (st : SysState) :
    (generate_image uid body o now st).2.1.cache = st.cache := by
  unfold generate_image
  repeat' split
  all_goals rfl

lemma generate_video_tasks_unchanged (uid : String) (body : Option VideoReqBody)
    (o : SubmitOracle) (now : Nat) (st : SysState) :
    (generate_video uid body o now st).2.1.tasks = st.tasks := by
  unfold generate_video
  repeat' split
  all_goals rfl

lemma image_task_trace (out : GenOutcome) (j : ImageJob) (nowP nowF : Nat) (st : SysState) :
    (generate_image_task out j nowP nowF st).2 = ["processing", "completed"] ∨
    (generate_image_task out j nowP nowF st).2 = ["processing", "failed"] := by
  cases out with
  | success t => exact Or.inl rfl
  | failure e => exact Or.inr rfl

lemma video_task_trace (out : GenOutcome) (j : VideoJob) (nowP nowF : Nat) (st : SysState) :
    (generate_video_task out j nowP nowF st).2 = ["processing", "completed"] ∨
    (generate_video_task out j nowP nowF st).2 = ["processing", "failed"] := by
  cases out with
  | success t => exact Or.inl rfl
  | failure e => exact Or.inr rfl

/-- Claim C1 counterexample: a valid, admitted, cache-missing image
submission (the spec's reference scenario, empty store) returns an enqueued
response for task id "task-1", yet the Task Registry holds no record at all
for "task-1" when the call returns — in particular none in state `queued`. -/
theorem C1_counterexample :
    (∃ est, (generate_image "demo_user" (some exBody) exOracle 0 sysState0).1 =
      ImageResp.enqueued "task-1" "processing" est "celery-1") ∧
    (∃ j, (generate_image "demo_user" (some exBody) exOracle 0 sysState0).2.2 = some j) ∧
    get_task_info (generate_image "demo_user" (some exBody) exOracle 0 sysState0).2.1.tasks
      "task-1" = none := by
  exact ⟨⟨_, rfl⟩, ⟨_, rfl⟩, rfl⟩

/-- Claim C1 (amended): neither submission endpoint writes any Task Registry
record before returning — for every request and store, the task store after
the call equals the task store before it; the first registry record for a
task is written by the worker, whose first recorded state is `processing`
(never `queued`), so the task only becomes retrievable once the worker has
started. -/
theorem C1_no_registry_record_at_submission (uid : String) (ibody : Option ImageReqBody)
    (vbody : Option VideoReqBody) (o : SubmitOracle) (now nowP nowF : Nat)
    (st stW : SysState) (out : GenOutcome) (j : ImageJob) (vj : VideoJob) :
    (generate_image uid ibody o now st).2.1.tasks = st.tasks ∧
    (generate_video uid vbody o now st).2.1.tasks = st.tasks ∧
    (∃ rest, (generate_image_task out j nowP nowF stW).2 = "processing" :: rest) ∧
    (∃ rest, (generate_video_task out vj nowP nowF stW).2 = "processing" :: rest) := by
  refine ⟨generate_image_tasks_unchanged uid ibody o now st,
    generate_video_tasks_unchanged uid vbody o now st, ?_, ?_⟩
  · rcases image_task_trace out j nowP nowF stW with h | h
    · exact ⟨["completed"], h⟩
    · exact ⟨["failed"], h⟩
  · rcases video_task_trace out vj nowP nowF stW with h | h
    · exact ⟨["completed"], h⟩
    · exact ⟨["failed"], h⟩

/-- Claim C2 counterexample: a successful image-worker run records exactly
the state sequence `processing, completed`, which is not a prefix of
`queued, processing, {completed|failed}` — the `queued` state is never
recorded. -/
theorem C2_lifecycle_counterexample :
    (generate_image_task (.success 3) exJob 1 2 sysState0).2 = ["processing", "completed"] ∧
    isClaimedLifecycle ["processing", "completed"] = false := by
  exact ⟨rfl, by decide⟩

/-- Claim C2 (amended): for every task, the sequence of states recorded in
the Task Registry is `processing, completed` or `processing, failed` — a
prefix of `processing, {completed|failed}` (the `queued` state is never
recorded).  The recorded sequence is strictly increasing in lifecycle rank,
so no update reverts to an earlier state and no update ever moves a task
out of a terminal state. -/
theorem C2_lifecycle_monotone (out : GenOutcome) (j : ImageJob) (vj : VideoJob)
    (nowP nowF : Nat) (st st2 : SysState) :
    ((generate_image_task out j nowP nowF st).2 = ["processing", "completed"] ∨
     (generate_image_task out j nowP nowF st).2 = ["processing", "failed"]) ∧
    List.Chain' (fun a b => stateRank a < stateRank b)
      (generate_image_task out j nowP nowF st).2 ∧
    ((generate_video_task out vj nowP nowF st2).2 = ["processing", "completed"] ∨
     (generate_video_task out vj nowP nowF st2).2 = ["processing", "failed"]) ∧
    List.Chain' (fun a b => stateRank a < stateRank b)
      (generate_video_task out vj nowP nowF st2).2 := by
  refine ⟨image_task_trace out j nowP nowF st, ?_, video_task_trace out vj nowP nowF st2, ?_⟩
  · rcases image_task_trace out j nowP nowF st with h | h <;> rw [h] <;>
      exact List.chain'_pair.mpr (by decide)
  · rcases video_task_trace out vj nowP nowF st2 with h | h <;> rw [h] <;>
      exact List.chain'_pair.mpr (by decide)

/-! ### Status/result endpoint lemmas (claims C7, C9) -/

lemma get_task_status_absent {tid uidB : String} {st : SysState}
    (h : get_task_info st.tasks tid = none) :
    get_task_status tid uidB st = .notFound "Tarefa não encontrada" := by
  unfold get_task_status
  rw [h]

lemma get_task_status_mismatch {tid uidB : String} {st : SysState} {info : TaskInfo}
    (h : get_task_info st.tasks tid = some info) (hne : info.user_id ≠ some uidB) :
    get_task_status tid uidB st = .notFound "Tarefa não encontrada" := by
  unfold get_task_status
  simp only [h]
  rw [if_pos hne]

lemma get_task_result_absent {tid uidB : String} {fe : String → Bool} {st : SysState}
    (h : get_task_info st.tasks tid = none) :
    get_task_result tid uidB fe st = .notFound "Tarefa não encontrada" := by
  unfold get_task_result
  rw [h]

lemma get_task_result_mismatch {tid uidB : String} {fe : String → Bool} {st : SysState}
    {info : TaskInfo}
    (h : get_task_info st.tasks tid = some info) (hne : info.user_id ≠ some uidB) :
    get_task_result tid uidB fe st = .notFound "Tarefa não encontrada" := by
  unfold get_task_result
  simp only [h]
  rw [if_pos hne]

/-- Claim C7: for both the status and the result endpoint, an ownership
mismatch produces exactly the same NotFound outcome (404 with body
"Tarefa não encontrada") as a task id with no stored record — the two
situations are indistinguishable to the caller. -/
theorem C7_auth_mismatch_indistinguishable (tid uidB : String) (st1 st2 : SysState)
    (fe1 fe2 : String → Bool) (info : TaskInfo) :
    (get_task_info st1.tasks tid = none →
      get_task_status tid uidB st1 = .notFound "Tarefa não encontrada" ∧
      get_task_result tid uidB fe1 st1 = .notFound "Tarefa não encontrada") ∧
    (get_task_info st2.tasks tid = some info → info.user_id ≠ some uidB →
      get_task_status tid uidB st2 = .notFound "Tarefa não encontrada" ∧
      get_task_result tid uidB fe2 st2 = .notFound "Tarefa não encontrada") ∧
    (get_task_info st1.tasks tid = none → get_task_info st2.tasks tid = some info →
      info.user_id ≠ some uidB →
      get_task_status tid uidB st2 = get_task_status tid uidB st1 ∧
      get_task_result tid uidB fe2 st2 = get_task_result tid uidB fe1 st1) := by
  refine ⟨fun h => ⟨get_task_status_absent h, get_task_result_absent h⟩,
    fun h hne => ⟨get_task_status_mismatch h hne, get_task_result_mismatch h hne⟩,
    fun h1 h2 hne => ?_⟩
  rw [get_task_status_absent h1, get_task_result_absent h1,
    get_task_status_mismatch h2 hne, get_task_result_mismatch h2 hne]
  exact ⟨rfl, rfl⟩

/-- Witness for C7: for "userB", the state owning task "t9" as "userA" is
indistinguishable from the empty state, on both endpoints. -/
theorem C7_auth_mismatch_indistinguishable_witness :
    get_task_status "t9" "userB" exOwnedState = .notFound "Tarefa não encontrada" ∧
    get_task_result "t9" "userB" (fun _ => true) exOwnedState =
      .notFound "Tarefa não encontrada" ∧
    get_task_status "t9" "userB" exOwnedState = get_task_status "t9" "userB" sysState0 ∧
    get_task_result "t9" "userB" (fun _ => true) exOwnedState =
      get_task_result "t9" "userB" (fun _ => true) sysState0 := by
  obtain ⟨-, hmis, hind⟩ :=
    C7_auth_mismatch_indistinguishable "t9" "userB" sysState0 exOwnedState
      (fun _ => true) (fun _ => true)
      ⟨"t9", "completed", 5, some "userA", some "/app/outputs/t9.png", some 3, none⟩
  obtain ⟨hs, hr⟩ := hmis rfl (by decide)
  obtain ⟨hs2, hr2⟩ := hind rfl rfl (by decide)
  exact ⟨hs, hr, hs2, hr2⟩

/-- Claim C9: on a result-cache hit the image submission endpoint answers
with a freshly generated task id and status `completed`, but writes no Task
Registry record for that id; a subsequent status or result query for the
returned task id therefore yields NotFound (404). -/
theorem C9_cache_hit_phantom_task (uid : String) (data : ImageReqBody) (o : SubmitOracle)
    (now : Nat) (st : SysState) (prompt : String) (entry : CacheEntry) (fe : String → Bool)
    (hadm : (check_rate_limit uid "image" now st.rate).1 = true)
    (hp : data.prompt = some prompt)
    (hlen : ¬ 1000 < prompt.length)
    (hsteps : ¬ ((image_params data prompt).steps < 1 ∨ 100 < (image_params data prompt).steps))
    (hhit : get_cached_result st.cache (generate_cache_key (image_params data prompt)) =
      some entry)
    (hfresh : get_task_info st.tasks o.task_id = none) :
    (generate_image uid (some data) o now st).1 =
      .cachedDone o.task_id "completed" entry.image_url true 0 ∧
    (generate_image uid (some data) o now st).2.2 = none ∧
    get_task_info (generate_image uid (some data) o now st).2.1.tasks o.task_id = none ∧
    get_task_status o.task_id uid (generate_image uid (some data) o now st).2.1 =
      .notFound "Tarefa não encontrada" ∧
    get_task_result o.task_id uid fe (generate_image uid (some data) o now st).2.1 =
      .notFound "Tarefa não encontrada" := by
  have hrun := @generate_image_hit uid data o now st prompt entry hadm hp hlen hsteps hhit
  rw [hrun]
  exact ⟨rfl, rfl, hfresh, get_task_status_absent hfresh, get_task_result_absent hfresh⟩

/-- Witness for C9: the reference scenario against a pre-populated cache —
the response reports `completed`/cached with the cached artifact, yet the
returned task id "task-1" is NotFound on both follow-up endpoints. -/
theorem C9_cache_hit_phantom_task_witness :
    (generate_image "demo_user" (some exBody) exOracle 0 exHitState).1 =
      .cachedDone "task-1" "completed" "/task/task-0/result" true 0 ∧
    (generate_image "demo_user" (some exBody) exOracle 0 exHitState).2.2 = none ∧
    get_task_info (generate_image "demo_user" (some exBody) exOracle 0
      exHitState).2.1.tasks "task-1" = none ∧
    get_task_status "task-1" "demo_user"
      (generate_image "demo_user" (some exBody) exOracle 0 exHitState).2.1 =
      .notFound "Tarefa não encontrada" ∧
    get_task_result "task-1" "demo_user" (fun _ => true)
      (generate_image "demo_user" (some exBody) exOracle 0 exHitState).2.1 =
      .notFound "Tarefa não encontrada" := by
  exact C9_cache_hit_phantom_task "demo_user" exBody exOracle 0 exHitState "a red cube"
    ⟨"/task/task-0/result", 3⟩ (fun _ => true) rfl rfl (by decide) (by decide)
    (by exact rget_rset_self [] _ _) rfl

/-- Claim C6: (a) whenever an image request reaches the cache check and the
fingerprint has an entry, the endpoint returns synchronously — status
`completed`, `cached = true`, `generation_time = 0`, the cached artifact
reference, no job enqueued, registry untouched; (b) after a first
submission of the same parameters is enqueued and its worker completes
successfully, a second submission is served from the cache with exactly the
artifact reference `/task/{first task id}/result` that the first completed
generation wrote. -/
theorem C6_idempotent_caching (uid uid2 : String) (data : ImageReqBody)
    (o1 o2 : SubmitOracle) (n1 n2 n3 n4 : Nat) (st : SysState) (prompt : String)
    (entry : CacheEntry) (t : ℚ) (j : ImageJob)
    (hp : data.prompt = some prompt)
    (hlen : ¬ 1000 < prompt.length)
    (hsteps : ¬ ((image_params data prompt).steps < 1 ∨
      100 < (image_params data prompt).steps)) :
    ((check_rate_limit uid "image" n1 st.rate).1 = true →
     get_cached_result st.cache (generate_cache_key (image_params data prompt)) =
       some entry →
     generate_image uid (some data) o1 n1 st =
       (.cachedDone o1.task_id "completed" entry.image_url true 0,
        { st with rate := (check_rate_limit uid "image" n1 st.rate).2 }, none)) ∧
    ((check_rate_limit uid "image" n1 st.rate).1 = true →
     get_cached_result st.cache (generate_cache_key (image_params data prompt)) = none →
     (generate_image uid (some data) o1 n1 st).2.2 = some j →
     (check_rate_limit uid2 "image" n4
        (post_first_generation uid data o1 n1 n2 n3 st t j).rate).1 = true →
     generate_image uid2 (some data) o2 n4 (post_first_generation uid data o1 n1 n2 n3 st t j) =
       (.cachedDone o2.task_id "completed" ("/task/" ++ o1.task_id ++ "/result") true 0,
        { (post_first_generation uid data o1 n1 n2 n3 st t j) with
          rate := (check_rate_limit uid2 "image" n4
            (post_first_generation uid data o1 n1 n2 n3 st t j).rate).2 }, none)) := by
  constructor
  · intro hadm hhit
    exact @generate_image_hit uid data o1 n1 st prompt entry hadm hp hlen hsteps hhit
  · intro hadm1 hmiss hj hadm2
    have hrun := @generate_image_miss uid data o1 n1 st prompt hadm1 hp hlen hsteps hmiss
    rw [hrun] at hj
    replace hj := Option.some.inj hj
    have hcacheW : (post_first_generation uid data o1 n1 n2 n3 st t j).cache =
        rset st.cache (generate_cache_key (image_params data prompt))
          ⟨"/task/" ++ o1.task_id ++ "/result", t⟩ := by
      unfold post_first_generation
      rw [hrun, ← hj]
      rfl
    have hhit2 : get_cached_result (post_first_generation uid data o1 n1 n2 n3 st t j).cache
        (generate_cache_key (image_params data prompt)) =
        some ⟨"/task/" ++ o1.task_id ++ "/result", t⟩ := by
      unfold get_cached_result
      rw [hcacheW]
      exact rget_rset_self _ _ _
    exact @generate_image_hit uid2 data o2 n4 _ prompt
      ⟨"/task/" ++ o1.task_id ++ "/result", t⟩ hadm2 hp hlen hsteps hhit2

/-- Witness for C6: the full round trip at the reference scenario — first
submission from the empty store enqueues a job, the worker completes in 3 s,
and the second submission returns the cached `/task/task-1/result` with
`generation_time = 0` and no job. -/
theorem C6_idempotent_caching_witness :
    generate_image "demo_user" (some exBody) exOracle2 0
        (post_first_generation "demo_user" exBody exOracle 0 1 2 sysState0 3
          ⟨"task-1", "a red cube", 512, 512, 50, (8 : ℚ), some 42, none,
           generate_cache_key (image_params exBody "a red cube"), "demo_user"⟩) =
      (.cachedDone "task-2" "completed" "/task/task-1/result" true 0,
       { (post_first_generation "demo_user" exBody exOracle 0 1 2 sysState0 3
           ⟨"task-1", "a red cube", 512, 512, 50, (8 : ℚ), some 42, none,
            generate_cache_key (image_params exBody "a red cube"), "demo_user"⟩) with
         rate := (check_rate_limit "demo_user" "image" 0
           (post_first_generation "demo_user" exBody exOracle 0 1 2 sysState0 3
             ⟨"task-1", "a red cube", 512, 512, 50, (8 : ℚ), some 42, none,
              generate_cache_key (image_params exBody "a red cube"), "demo_user"⟩).rate).2 },
       none) := by
  exact (C6_idempotent_caching "demo_user" "demo_user" exBody exOracle exOracle2 0 1 2 0
    sysState0 "a red cube" ⟨"x", 0⟩ 3
    ⟨"task-1", "a red cube", 512, 512, 50, (8 : ℚ), some 42, none,
     generate_cache_key (image_params exBody "a red cube"), "demo_user"⟩
    rfl (by decide) (by decide)).2 rfl rfl rfl rfl

/-! ### Rate limiting precedes validation (claim C10) -/

lemma check_admit_rateCount {u e : String} {now : Nat} {st : RateStore}
    (h : (check_rate_limit u e now st).1 = true) :
    rateCount (check_rate_limit u e now st).2 (rl_key u e) now =
      rateCount st (rl_key u e) now + 1 := by
  rcases hr : rget st (rl_key u e) with _ | ⟨c, exp⟩
  · rw [check_fresh hr]
    unfold rateCount
    rw [rget_rset_self, hr]
    show (if now < now + rate_limit_window then 1 else 0) = 0 + 1
    rw [if_pos (by unfold rate_limit_window; omega)]
  · by_cases hlt : now < exp
    · by_cases hceil : rate_limit_of u ≤ c
      · rw [check_reject hr hlt hceil] at h
        exact absurd h Bool.false_ne_true
      · rw [check_incr hr hlt (by omega)]
        unfold rateCount
        rw [rget_rset_self, hr]
        show (if now < exp then c + 1 else 0) = (if now < exp then c else 0) + 1
        rw [if_pos hlt, if_pos hlt]
    · rw [check_expired hr (by omega)]
      unfold rateCount
      rw [rget_rset_self, hr]
      show (if now < now + rate_limit_window then 1 else 0) =
        (if now < exp then c else 0) + 1
      rw [if_pos (by unfold rate_limit_window; omega), if_neg hlt]

/-- Claim C10: both endpoints run the rate-limit check (which initializes or
increments the caller's window counter) before any parameter validation, so
a request that is then rejected with a validation error — missing prompt,
over-long prompt, out-of-range step count, invalid duration or fps — has
already consumed one unit of the user's quota for the current window: the
returned state carries the post-admission counter. -/
theorem C10_rate_limit_precedes_validation (uid : String) (data : ImageReqBody)
    (vdata : VideoReqBody) (o : SubmitOracle) (now : Nat) (st : SysState)
    (prompt : String) (dur : ℚ)
    (hadmI : (check_rate_limit uid "image" now st.rate).1 = true)
    (hadmV : (check_rate_limit uid "video" now st.rate).1 = true) :
    (rateCount (check_rate_limit uid "image" now st.rate).2 (rl_key uid "image") now =
      rateCount st.rate (rl_key uid "image") now + 1) ∧
    (rateCount (check_rate_limit uid "video" now st.rate).2 (rl_key uid "video") now =
      rateCount st.rate (rl_key uid "video") now + 1) ∧
    (data.prompt = none →
      generate_image uid (some data) o now st =
        (.badRequest "Prompt é obrigatório",
         { st with rate := (check_rate_limit uid "image" now st.rate).2 }, none)) ∧
    (data.prompt = some prompt → 1000 < prompt.length →
      generate_image uid (some data) o now st =
        (.badRequest "Prompt muito longo (máximo 1000 caracteres)",
         { st with rate := (check_rate_limit uid "image" now st.rate).2 }, none)) ∧
    (data.prompt = some prompt → ¬ 1000 < prompt.length →
      ((image_params data prompt).steps < 1 ∨ 100 < (image_params data prompt).steps) →
      generate_image uid (some data) o now st =
        (.badRequest "num_inference_steps deve estar entre 1 e 100",
         { st with rate := (check_rate_limit uid "image" now st.rate).2 }, none)) ∧
    (vdata.prompt = some prompt → vdata.duration = some dur →
      (min dur MAX_VIDEO_DURATION ≤ 0 ∨ MAX_VIDEO_DURATION < min dur MAX_VIDEO_DURATION) →
      generate_video uid (some vdata) o now st =
        (.badRequest "Duration deve estar entre 0 e 30 segundos",
         { st with rate := (check_rate_limit uid "video" now st.rate).2 }, none)) ∧
    (vdata.prompt = some prompt → vdata.duration = some dur →
      ¬ (min dur MAX_VIDEO_DURATION ≤ 0 ∨ MAX_VIDEO_DURATION < min dur MAX_VIDEO_DURATION) →
      (vdata.fps.getD 24 < 1 ∨ 60 < vdata.fps.getD 24) →
      generate_video uid (some vdata) o now st =
        (.badRequest "FPS deve estar entre 1 e 60",
         { st with rate := (check_rate_limit uid "video" now st.rate).2 }, none)) := by
  refine ⟨check_admit_rateCount hadmI, check_admit_rateCount hadmV, ?_, ?_, ?_, ?_, ?_⟩
  · intro h
    unfold generate_image
    rw [if_pos hadmI]
    simp only [h]
  · intro h hl
    unfold generate_image
    rw [if_pos hadmI]
    simp only [h]
    rw [if_pos hl]
  · intro h hl hs
    unfold generate_image
    rw [if_pos hadmI]
    simp only [h]
    rw [if_neg hl, if_pos hs]
  · intro h hd hdur
    unfold generate_video
    rw [if_pos hadmV]
    simp only [h, hd]
    rw [if_pos hdur]
  · intro h hd hdur hfps
    unfold generate_video
    rw [if_pos hadmV]
    simp only [h, hd]
    rw [if_neg hdur, if_pos hfps]

/-- Witness for C10: a request with an out-of-range step count (200) from
the empty store is rejected with 400 but the caller's window counter has
still gone from 0 to 1. -/
theorem C10_rate_limit_precedes_validation_witness :
    (rateCount (check_rate_limit "demo_user" "image" 0 []).2
      (rl_key "demo_user" "image") 0 = rateCount [] (rl_key "demo_user" "image") 0 + 1) ∧
    generate_image "demo_user"
      (some ⟨some "a red cube", some 512, some 512, some 200, some (8 : ℚ), some 42, none⟩)
      exOracle 0 sysState0 =
      (.badRequest "num_inference_steps deve estar entre 1 e 100",
       { sysState0 with rate := (check_rate_limit "demo_user" "image" 0 []).2 }, none) := by
  obtain ⟨hcount, -, -, -, hsteps, -, -⟩ :=
    C10_rate_limit_precedes_validation "demo_user"
      ⟨some "a red cube", some 512, some 512, some 200, some (8 : ℚ), some 42, none⟩
      ⟨some "a red cube", some (20 : ℚ), some 512, some 512, some 24, some 42, none⟩
      exOracle 0 sysState0 "a red cube" 20 rfl rfl
  exact ⟨hcount, hsteps rfl (by decide) (by decide)⟩

/-- Witness for C8 at the spec's video scenario (duration 30 s, fps 24,
512x512): 720 frames, video estimate 720 s, image baseline 10 s. -/
theorem C8_time_estimates_witness :
    estimate_generation_time 512 512 50 = 10 ∧
    pyInt ((30 : ℚ) * (24 : ℚ)) = 720 ∧
    estimate_video_generation_time 30 512 512 24 = 720 := by
  obtain ⟨-, -, hbase, -, hfr, hvid⟩ :=
    C8_time_estimates 512 512 50 24 30 (by norm_num) (by norm_num) (by norm_num)
      (by norm_num) (by norm_num)
  exact ⟨hbase, hfr, hvid⟩

end FluxML
